import Mathlib

/-!
# Single-slot mailbox bridge of the Greengrass v1-to-v2 migration examples

A shallow embedding of the handlers and publisher workers of

* `examples/v1-lambda-migration/c/local_communication/v2_processor.c`
* `examples/v1-lambda-migration/c/cloud_communication/v2_controller.c`
* `examples/v1-lambda-migration/cpp/local_communication/v2_processor.cpp`
* `examples/v1-lambda-migration/c/local_communication/v1_processor_lambda.c`

C buffers are lists of byte values, the module-level mailbox (slot and flag)
is an explicit state record, and every function returns the new mailbox
together with the trace of the synchronisation, logging and publish calls it
makes, in program order.
-/

namespace GreengrassBridge

/-! ## Bytes and the C library -/

/-- Contents of a C buffer: one natural number below 256 per byte. -/
abbrev Bytes := List Nat

/-- The bytes of an ASCII string literal of the sources. -/
def ascii (s : String) : Bytes := s.toList.map Char.toNat

/-- The C string held in a char array: the bytes before the first NUL. -/
def cstr (a : Bytes) : Bytes := a.takeWhile (fun b => b != 0)

/-- The cast `(int) n` of a `size_t` length, as two's complement on 32 bits. -/
def int_of_size_t (n : Nat) : Int :=
  if n % 2 ^ 32 < 2 ^ 31 then ((n % 2 ^ 32 : Nat) : Int) else ((n % 2 ^ 32 : Nat) : Int) - 2 ^ 32

/-- Expansion of the conversion `%.*s` with precision `prec` over the bytes
`data`: at most `prec` bytes, stopping at the first NUL; a negative precision
counts as no precision, and the read then ends with `data` (memory behind the
buffer is not modelled). -/
def fmt_prec_s (prec : Int) (data : Bytes) : Bytes :=
  if prec < 0 then cstr data else cstr (data.take prec.toNat)

/-- Expansion of `%ld` and `%lld`: the decimal digits, with a minus sign for a
negative value. -/
def fmt_ld (v : Int) : Bytes :=
  if v < 0 then 45 :: (Nat.toDigits 10 v.natAbs).map Char.toNat
  else (Nat.toDigits 10 v.natAbs).map Char.toNat

/-- Overwrite the start of the array `dst` with `src`, for `src` no longer
than `dst` (every write of the sources is within its array). -/
def write_bytes (dst src : Bytes) : Bytes :=
  src ++ dst.drop src.length

/-- The array `dst` of `size` bytes after `snprintf(dst, size, ...)` whose
expanded text is `out`: at most `size - 1` bytes of text, then a NUL. -/
def snprintf (dst : Bytes) (size : Nat) (out : Bytes) : Bytes :=
  if size = 0 then dst else write_bytes dst (out.take (size - 1) ++ [0])

/-- The function `strstr(hay, needle)` over C strings given by their bytes
before the NUL; the result pointer is given by the string it points to. -/
def strstr : Bytes → Bytes → Option Bytes
  | [], needle => if needle.isEmpty then some [] else none
  | h :: t, needle => if needle.isPrefixOf (h :: t) then some (h :: t) else strstr t needle

/-- The function `strchr(s, c)` for a character `c`, the result pointer given
by the string it points to. -/
def strchr : Bytes → Nat → Option Bytes
  | [], c => if c = 0 then some [] else none
  | h :: t, c => if h = c then some (h :: t) else strchr t c

/-- Pointer difference `e - s` of two pointers into the same C string, `e` not
before `s`, each given by the string it points to. -/
def ptr_diff (e s : Bytes) : Nat := s.length - e.length

/-- The array `dst` after `strncpy(dst, src, n)`: the first `n` bytes of the C
string `src`, padded with NUL bytes up to `n` when `src` is shorter. -/
def strncpy (dst src : Bytes) (n : Nat) : Bytes :=
  write_bytes dst (src.take n ++ List.replicate (n - (src.take n).length) 0)

/-- The array `dst` after `strcpy(dst, src)`. -/
def strcpy (dst src : Bytes) : Bytes := write_bytes dst (src ++ [0])

/-- The test `strcmp(a, lit) == 0` of the C string in the array `a` against a
literal. -/
def strcmp_eq (a lit : Bytes) : Bool := cstr a == lit

/-! ## The SDK object model -/

/-- Error codes of the SDK; `GG_ERR_OK` is zero. -/
abbrev GgError := Nat

/-- The success code. -/
def GG_ERR_OK : GgError := 0

/-- The dynamically typed value handed to a local-topic handler. -/
inductive GgObject where
  | null
  | boolean (b : Bool)
  | i64 (v : Int)
  | f64 (bits : Nat)
  | buf (b : Bytes)
  | list (xs : List GgObject)
  | map (kvs : List (Bytes × GgObject))

/-- Type tags of `GgObject`. -/
inductive GgObjectType where
  | GG_TYPE_NULL | GG_TYPE_BOOLEAN | GG_TYPE_I64 | GG_TYPE_F64
  | GG_TYPE_BUF | GG_TYPE_LIST | GG_TYPE_MAP
  deriving DecidableEq, Repr

/-- The tag of an object. -/
def gg_obj_type : GgObject → GgObjectType
  | .null => .GG_TYPE_NULL
  | .boolean _ => .GG_TYPE_BOOLEAN
  | .i64 _ => .GG_TYPE_I64
  | .f64 _ => .GG_TYPE_F64
  | .buf _ => .GG_TYPE_BUF
  | .list _ => .GG_TYPE_LIST
  | .map _ => .GG_TYPE_MAP

/-- What the SDK accessors `gg_obj_into_map`, `gg_obj_into_buf` and
`gg_obj_into_i64` return on an object of another type. The SDK is not part of
the sources, so these results are parameters of the embedding. -/
structure SdkMismatch where
  map_of : GgObject → List (Bytes × GgObject)
  buf_of : GgObject → Bytes
  i64_of : GgObject → Int

/-- Accessor for a map object. -/
def gg_obj_into_map (sdk : SdkMismatch) : GgObject → List (Bytes × GgObject)
  | .map kvs => kvs
  | o => sdk.map_of o

/-- Accessor for a buffer object. -/
def gg_obj_into_buf (sdk : SdkMismatch) : GgObject → Bytes
  | .buf b => b
  | o => sdk.buf_of o

/-- Accessor for an integer object. -/
def gg_obj_into_i64 (sdk : SdkMismatch) : GgObject → Int
  | .i64 v => v
  | o => sdk.i64_of o

/-- The lookup `gg_map_get(map, key, &result)`: the value of the first pair
whose key equals `key`; `none` stands for the result `false`. -/
def gg_map_get : List (Bytes × GgObject) → Bytes → Option GgObject
  | [], _ => none
  | (k, v) :: rest, key => if k = key then some v else gg_map_get rest key

/-! ## Traces -/

/-- The calls a handler or worker makes that touch shared state or the world,
in program order: the mutex and condition calls, the accesses to the flag and
to a field (or the whole) of the slot, the log calls and the publish calls. A
log call carries its format string only, or the first literal of a C++ stream
expression. -/
inductive Event where
  | mutex_lock
  | mutex_unlock
  | cond_wait
  | cond_signal
  | read_flag
  | write_flag
  | read_slot
  | write_slot
  | print (fmt : String)
  | eprint (fmt : String)
  | publish_to_topic_json (topic : Bytes) (payload : List (Bytes × GgObject))
  | publish_to_iot_core (topic : Bytes) (payload : Bytes) (qos : Nat)

/-- Whether the event is a publish call. -/
def Event.isPublish : Event → Bool
  | .publish_to_topic_json _ _ => true
  | .publish_to_iot_core _ _ _ => true
  | _ => false

/-- Whether the event is a call on the mutex or the condition variable. -/
def Event.isSync : Event → Bool
  | .mutex_lock => true
  | .mutex_unlock => true
  | .cond_wait => true
  | .cond_signal => true
  | _ => false

/-- Whether the event is a log call. -/
def Event.isLog : Event → Bool
  | .print _ => true
  | .eprint _ => true
  | _ => false

/-- Outcome of the part of a worker iteration that takes a record. -/
inductive Take (ρ σ : Type) where
  | blocked (trace : List Event)
  | taken (rec : ρ) (st : σ) (trace : List Event)

/-- Outcome of one pass of a worker through its loop body: either the worker
is still inside `pthread_cond_wait`, or the body has run to its end and
control is back at the top of `while (true)`. -/
inductive Iteration (σ : Type) where
  | waiting (trace : List Event)
  | loop_top (st : σ) (trace : List Event)

/-- The events of the wait loop `while (!flag) pthread_cond_wait(...)` when
the flag stays `flag` and `pthread_cond_wait` returns `wakeups` times: the
Boolean tells whether the loop has been left. -/
def wait_loop (flag : Bool) : Nat → Bool × List Event
  | 0 => if flag then (true, [.read_flag]) else (false, [.read_flag, .cond_wait])
  | n + 1 =>
    if flag then (true, [.read_flag])
    else ((wait_loop flag n).1, .read_flag :: .cond_wait :: (wait_loop flag n).2)

/-! ## v2_processor.c -/

/-- The literal `SUBSCRIBE_TOPIC`. -/
def SUBSCRIBE_TOPIC : Bytes := ascii "sensors/temperature"

/-- The literal `PUBLISH_TOPIC`. -/
def PUBLISH_TOPIC : Bytes := ascii "component/alerts"

/-- The struct `AlertData`: `sensor_id` is the 64-byte array. -/
structure AlertData where
  sensor_id : Bytes
  temperature : Int
  deriving DecidableEq

/-- The mailbox of `v2_processor.c`: `pending_alert` and `has_pending_alert`. -/
structure ProcessorState where
  pending_alert : AlertData
  has_pending_alert : Bool
  deriving DecidableEq

/-- The mailbox at program start: static storage is zeroed and the flag is
initialised to `false`. -/
def ProcessorState.init : ProcessorState :=
  { pending_alert := { sensor_id := List.replicate 64 0, temperature := 0 },
    has_pending_alert := false }

/-- The handler `on_sensor_data`. -/
def on_sensor_data (sdk : SdkMismatch) (payload : GgObject) (st : ProcessorState) :
    ProcessorState × List Event :=
  if gg_obj_type payload ≠ .GG_TYPE_MAP then
    (st, [.eprint "Expected JSON message\n"])
  else
    match gg_map_get (gg_obj_into_map sdk payload) (ascii "sensor_id") with
    | none => (st, [.eprint "Missing sensor_id field\n"])
    | some sensor_id_obj =>
      match gg_map_get (gg_obj_into_map sdk payload) (ascii "temperature") with
      | none => (st, [.eprint "Missing temperature field\n"])
      | some temperature_obj =>
        if gg_obj_into_i64 sdk temperature_obj > 80 then
          ({ pending_alert :=
               { sensor_id :=
                   snprintf st.pending_alert.sensor_id 64
                     (fmt_prec_s (int_of_size_t (gg_obj_into_buf sdk sensor_id_obj).length)
                       (gg_obj_into_buf sdk sensor_id_obj)),
                 temperature := gg_obj_into_i64 sdk temperature_obj },
             has_pending_alert := true },
           [.print "Received from sensor %.*s: %lld°F\n", .mutex_lock, .write_slot,
            .write_slot, .write_flag, .cond_signal, .mutex_unlock])
        else
          (st, [.print "Received from sensor %.*s: %lld°F\n"])

/-- Lines 31 to 38 of `alert_publisher_thread`: lock, wait for the flag, copy
the slot, clear the flag, unlock. -/
def alert_take (wakeups : Nat) (st : ProcessorState) : Take AlertData ProcessorState :=
  if (wait_loop st.has_pending_alert wakeups).1 then
    .taken st.pending_alert { st with has_pending_alert := false }
      (.mutex_lock :: (wait_loop st.has_pending_alert wakeups).2
        ++ [.read_slot, .write_flag, .mutex_unlock])
  else
    .blocked (.mutex_lock :: (wait_loop st.has_pending_alert wakeups).2)

/-- The map published for a taken alert. -/
def alert_payload (alert : AlertData) : List (Bytes × GgObject) :=
  [(ascii "sensor_id", .buf (cstr alert.sensor_id)),
   (ascii "temperature", .i64 alert.temperature),
   (ascii "alert", .buf (ascii "HIGH_TEMPERATURE"))]

/-- One pass through the body of `while (true)` in `alert_publisher_thread`;
`ret` is what `ggipc_publish_to_topic_json` returns. -/
def alert_publisher_thread (ret : GgError) (wakeups : Nat) (st : ProcessorState) :
    Iteration ProcessorState :=
  match alert_take wakeups st with
  | .blocked tr => .waiting tr
  | .taken alert st1 tr =>
    if ret ≠ GG_ERR_OK then
      .loop_top st1 (tr ++ [.publish_to_topic_json PUBLISH_TOPIC (alert_payload alert),
        .eprint "Failed to publish alert\n"])
    else
      .loop_top st1 (tr ++ [.publish_to_topic_json PUBLISH_TOPIC (alert_payload alert),
        .print "Alert sent to AlertHandler component\n"])

/-- A run of handler invocations, one per payload, with no take in between. -/
def run_sensor_handlers (sdk : SdkMismatch) (ps : List GgObject) (st : ProcessorState) :
    ProcessorState :=
  ps.foldl (fun s p => (on_sensor_data sdk p s).1) st

/-! ## v2_controller.c -/

/-- The literal `COMMAND_TOPIC`. -/
def COMMAND_TOPIC : Bytes := ascii "commands/device1"

/-- The literal `TELEMETRY_TOPIC`. -/
def TELEMETRY_TOPIC : Bytes := ascii "telemetry/device1"

/-- The struct `CommandData`: two 64-byte arrays. -/
structure CommandData where
  device_id : Bytes
  command : Bytes
  deriving DecidableEq

/-- The mailbox of `v2_controller.c`: `pending_command` and
`has_pending_command`. -/
structure ControllerState where
  pending_command : CommandData
  has_pending_command : Bool
  deriving DecidableEq

/-- The mailbox at program start: static storage is zeroed and the flag is
initialised to `false`. -/
def ControllerState.init : ControllerState :=
  { pending_command := { device_id := List.replicate 64 0, command := List.replicate 64 0 },
    has_pending_command := false }

/-- The function `get_device_status`. -/
def get_device_status : Bytes := ascii "online"

/-- The local `payload_str` of `on_cloud_command` as a C string: the text of
`%.*s` over the payload, cut to the 511 bytes that fit the array. -/
def payload_str (payload : Bytes) : Bytes :=
  (fmt_prec_s (int_of_size_t payload.length) payload).take 511

/-- The nested extraction that `on_cloud_command` runs once from
`command_start` for `pending_command.command` and once from `device_id_start`
for `pending_command.device_id`: find a colon, then a double quote, step past
it, find the closing double quote, and when the length is below the size of
the field copy the value and terminate it. The result is the new content of
the 64-byte field, or `none` when the field is not written. -/
def extract_value (start field : Bytes) : Option Bytes :=
  match strstr start (ascii ":") with
  | none => none
  | some colon =>
    match strchr colon 34 with
    | none => none
    | some quote =>
      match strchr quote.tail 34 with
      | none => none
      | some value_end =>
        if ptr_diff value_end quote.tail < 64 then
          some ((strncpy field quote.tail (ptr_diff value_end quote.tail)).set
            (ptr_diff value_end quote.tail) 0)
        else none

/-- The field after the extraction: rewritten, or left as it was. -/
def field_after (start field : Bytes) : Bytes :=
  (extract_value start field).getD field

/-- The write events of one extraction. -/
def extract_events (start field : Bytes) : List Event :=
  if (extract_value start field).isSome then [.write_slot] else []

/-- The handler `on_cloud_command`. -/
def on_cloud_command (payload : Bytes) (st : ControllerState) : ControllerState × List Event :=
  match strstr (payload_str payload) (ascii "\"command\"") with
  | none => (st, [.print "Received command from IoT Core: %.*s\n"])
  | some command_start =>
    match strstr (payload_str payload) (ascii "\"device_id\"") with
    | some device_id_start =>
      ({ pending_command :=
           { command := field_after command_start st.pending_command.command,
             device_id := field_after device_id_start st.pending_command.device_id },
         has_pending_command := true },
       [.print "Received command from IoT Core: %.*s\n", .mutex_lock]
         ++ extract_events command_start st.pending_command.command
         ++ extract_events device_id_start st.pending_command.device_id
         ++ [.read_slot, .print "Received command from cloud: %s\n", .write_flag,
             .cond_signal, .mutex_unlock])
    | none =>
      ({ pending_command :=
           { command := field_after command_start st.pending_command.command,
             device_id := strcpy st.pending_command.device_id (ascii "device1") },
         has_pending_command := true },
       [.print "Received command from IoT Core: %.*s\n", .mutex_lock]
         ++ extract_events command_start st.pending_command.command
         ++ [.write_slot, .read_slot, .print "Received command from cloud: %s\n", .write_flag,
             .cond_signal, .mutex_unlock])

/-- Lines 37 to 44 of `telemetry_publisher_thread`: lock, wait for the flag,
copy the slot, clear the flag, unlock. -/
def command_take (wakeups : Nat) (st : ControllerState) : Take CommandData ControllerState :=
  if (wait_loop st.has_pending_command wakeups).1 then
    .taken st.pending_command { st with has_pending_command := false }
      (.mutex_lock :: (wait_loop st.has_pending_command wakeups).2
        ++ [.read_slot, .write_flag, .mutex_unlock])
  else
    .blocked (.mutex_lock :: (wait_loop st.has_pending_command wakeups).2)

/-- The C string left in the local `telemetry_json[512]` by the `snprintf` of
the worker; `now` is the value of `time(NULL)`. -/
def telemetry_json (cmd : CommandData) (now : Int) : Bytes :=
  (ascii "\x7b\"device_id\":\"" ++ cstr cmd.device_id ++ ascii "\",\"status\":\""
    ++ get_device_status ++ ascii "\",\"timestamp\":" ++ fmt_ld now ++ ascii "\x7d").take 511

/-- One pass through the body of `while (true)` in
`telemetry_publisher_thread`; `ret` is what `ggipc_publish_to_iot_core`
returns and `now` the value of `time(NULL)`. -/
def telemetry_publisher_thread (ret : GgError) (now : Int) (wakeups : Nat)
    (st : ControllerState) : Iteration ControllerState :=
  match command_take wakeups st with
  | .blocked tr => .waiting tr
  | .taken cmd st1 tr =>
    if strcmp_eq cmd.command (ascii "get_status") then
      if ret ≠ GG_ERR_OK then
        .loop_top st1 (tr ++ [.publish_to_iot_core TELEMETRY_TOPIC (telemetry_json cmd now) 0,
          .eprint "Failed to publish telemetry to IoT Core\n"])
      else
        .loop_top st1 (tr ++ [.publish_to_iot_core TELEMETRY_TOPIC (telemetry_json cmd now) 0,
          .print "Telemetry sent to cloud: device_id=%s, status=%s\n"])
    else
      .loop_top st1 tr

/-- A run of handler invocations, one per payload, with no take in between. -/
def run_command_handlers (ps : List Bytes) (st : ControllerState) : ControllerState :=
  ps.foldl (fun s p => (on_cloud_command p s).1) st

/-! ## v2_processor.cpp -/

/-- The exceptions `std::stoll` throws. -/
inductive CppException where
  | invalid_argument
  | out_of_range
  deriving DecidableEq, Repr

/-- The member `std::string::find(needle)`: position of the first occurrence,
`none` for `npos`. -/
def string_find : Bytes → Bytes → Option Nat
  | [], needle => if needle.isEmpty then some 0 else none
  | h :: t, needle =>
    if needle.isPrefixOf (h :: t) then some 0 else (string_find t needle).map (· + 1)

/-- The member `std::string::find_first_of(set, pos)`. -/
def find_first_of (s set : Bytes) (pos : Nat) : Option Nat :=
  ((s.drop pos).findIdx? (fun b => set.contains b)).map (· + pos)

/-- The member `std::string::substr(pos, len)` for `pos` within the string. -/
def substr (s : Bytes) (pos len : Nat) : Bytes := (s.drop pos).take len

/-- The C classification `isspace` in the default locale. -/
def isspace (c : Nat) : Bool := c == 32 || (9 ≤ c && c ≤ 13)

/-- The C classification `isdigit`. -/
def isdigit (c : Nat) : Bool := 48 ≤ c && c ≤ 57

/-- The optional sign in front of the digits: whether it is a minus, and the
rest of the text. -/
def split_sign : Bytes → Bool × Bytes
  | 45 :: r => (true, r)
  | 43 :: r => (false, r)
  | s => (false, s)

/-- The value of a run of decimal digits. -/
def digits_value (ds : Bytes) : Nat := ds.foldl (fun a d => 10 * a + (d - 48)) 0

/-- The function `std::stoll(s)` in base 10: leading white space is skipped,
an optional sign and the longest run of digits are converted, what follows is
ignored; no digit at all throws `std::invalid_argument`, a value outside
`long long` throws `std::out_of_range`. -/
def stoll (s : Bytes) : Except CppException Int :=
  let body := split_sign (s.dropWhile isspace)
  let ds := body.2.takeWhile isdigit
  if ds.isEmpty then .error .invalid_argument
  else
    let v : Int := if body.1 then -(digits_value ds : Int) else (digits_value ds : Int)
    if v < -(2 : Int) ^ 63 ∨ (2 : Int) ^ 63 - 1 < v then .error .out_of_range else .ok v

/-- The struct `AlertData` of the C++ processor, with a `std::string` id. -/
structure CppAlertData where
  sensor_id : Bytes
  temperature : Int
  deriving DecidableEq

/-- The mailbox of `v2_processor.cpp`. -/
structure CppProcessorState where
  pending_alert : CppAlertData
  has_pending_alert : Bool
  deriving DecidableEq

/-- The mailbox at program start. -/
def CppProcessorState.init : CppProcessorState :=
  { pending_alert := { sensor_id := [], temperature := 0 }, has_pending_alert := false }

/-- The temperature that `SensorCallback::operator()` reads from the text:
0 unless the key and a following comma or closing brace are found, else the
result of `std::stoll` on the text between them. -/
def parse_temperature (json_str : Bytes) : Except CppException Int :=
  match string_find json_str (ascii "\"temperature\":") with
  | none => .ok 0
  | some temp_pos =>
    match find_first_of json_str (ascii ",\x7d") (temp_pos + 14) with
    | none => .ok 0
    | some end_pos => stoll (substr json_str (temp_pos + 14) (end_pos - (temp_pos + 14)))

/-- The handler `SensorCallback::operator()`: `.error e` means the exception
`e` leaves the handler. -/
def SensorCallback (payload : GgObject) (st : CppProcessorState) :
    Except CppException (CppProcessorState × List Event) :=
  if gg_obj_type payload ≠ .GG_TYPE_BUF then
    .ok (st, [.eprint "Expected Buffer message\n"])
  else
    match payload with
    | .buf json_str =>
      match parse_temperature json_str with
      | .error e => .error e
      | .ok temperature =>
        if temperature > 80 then
          .ok ({ pending_alert := { sensor_id := ascii "sensor1", temperature := temperature },
                 has_pending_alert := true },
               [.print "Received from sensor ", .mutex_lock, .write_slot,
                .write_flag, .cond_signal, .mutex_unlock])
        else
          .ok (st, [.print "Received from sensor "])
    | _ => .ok (st, [.eprint "Expected Buffer message\n"])

/-! ## v1_processor_lambda.c -/

/-- A value of the JSON library: what `json_loads` returns for a text it
accepts. -/
inductive Json where
  | null
  | boolean (b : Bool)
  | integer (v : Int)
  | real (bits : Nat)
  | string (s : Bytes)
  | array (xs : List Json)
  | object (kvs : List (Bytes × Json))

/-- The lookup in a list of members: the value of the first member named
`key`. -/
def json_members_get : List (Bytes × Json) → Bytes → Option Json
  | [], _ => none
  | (k, v) :: rest, key => if k = key then some v else json_members_get rest key

/-- The library call `json_object_get(json, key)`: `none`, for NULL, when
`json` is not an object or has no member `key`. -/
def json_object_get : Json → Bytes → Option Json
  | .object kvs, key => json_members_get kvs key
  | _, _ => none

/-- The library call `json_string_value(json)`: `none`, for NULL, unless
`json` is a string. -/
def json_string_value : Option Json → Option Bytes
  | some (.string s) => some s
  | _ => none

/-- The library call `json_integer_value(json)`: 0 unless `json` is an
integer. -/
def json_integer_value : Option Json → Int
  | some (.integer v) => v
  | _ => 0

/-- The conversion of a `long long` to `int` at the initialisation
`int temperature = json_integer_value(...)`: the value modulo 2^32 in the
range of a 32-bit `int`. -/
def int_of_long_long (v : Int) : Int := (v + 2 ^ 31) % 2 ^ 32 - 2 ^ 31

/-- The calls of the v1 handler, in program order; a publish carries the
topic and the members of the object handed to `json_dumps`. -/
inductive V1Event where
  | print (fmt : String)
  | eprint (fmt : String)
  | publish (topic : Bytes) (alert_data : List (Bytes × Json))

/-- Whether the event is a publish call. -/
def V1Event.isPublish : V1Event → Bool
  | .publish _ _ => true
  | _ => false

/-- The object `alert_data` built by the v1 handler: `json_string(NULL)` is
NULL and `json_object_set_new` then sets nothing. -/
def v1_alert_data (sensor_id : Option Bytes) (temperature : Int) : List (Bytes × Json) :=
  (match sensor_id with
    | some s => [(ascii "sensor_id", Json.string s)]
    | none => [])
  ++ [(ascii "temperature", .integer temperature),
      (ascii "alert", .string (ascii "HIGH_TEMPERATURE"))]

/-- The handler `on_message_received` of `v1_processor_lambda.c`; `event` is
the result of `json_loads` on the payload, `none` when the text is rejected. -/
def on_message_received (event : Option Json) : List V1Event :=
  match event with
  | none => [.eprint "Error parsing JSON: %s\n"]
  | some ev =>
    if int_of_long_long (json_integer_value (json_object_get ev (ascii "temperature"))) > 80 then
      [.print "Received from sensor %s: %d°F\n",
       .publish (ascii "lambda/alerts")
         (v1_alert_data (json_string_value (json_object_get ev (ascii "sensor_id")))
           (int_of_long_long (json_integer_value (json_object_get ev (ascii "temperature"))))),
       .print "Alert sent to subscriber Lambda\n"]
    else
      [.print "Received from sensor %s: %d°F\n"]

/-- The parsed payload `{"sensor_id": s, "temperature": t}`. -/
def v1_event (s : Bytes) (t : Int) : Json :=
  .object [(ascii "sensor_id", .string s), (ascii "temperature", .integer t)]

/-! ## The two `main` functions -/

/-- The calls of `main`, in program order. -/
inductive MainEvent where
  | setvbuf
  | print (fmt : String)
  | eprint (fmt : String)
  | gg_sdk_init
  | ggipc_connect
  | pthread_create
  | subscribe (topic : Bytes)
  deriving DecidableEq

/-- How `main` ends: the process has called `exit(status)`, or control is in
the endless `while (true) sleep(1)` loop. -/
inductive MainOutcome where
  | exited (status : Nat) (trace : List MainEvent)
  | heartbeat (trace : List MainEvent)
  deriving DecidableEq

/-- The function `main` of `v2_processor.c`; the arguments are what
`ggipc_connect`, `pthread_create` and `ggipc_subscribe_to_topic` return when
they are called. -/
def v2_processor_main (connect_ret : GgError) (create_ret : Int) (subscribe_ret : GgError) :
    MainOutcome :=
  if connect_ret ≠ GG_ERR_OK then
    .exited 1 [.setvbuf, .print "Temperature Processor component starting...\n", .gg_sdk_init,
      .ggipc_connect, .eprint "Failed to connect to Greengrass nucleus\n"]
  else if create_ret ≠ 0 then
    .exited 1 [.setvbuf, .print "Temperature Processor component starting...\n", .gg_sdk_init,
      .ggipc_connect, .print "Connected to Greengrass IPC\n", .pthread_create,
      .eprint "Failed to create alert publisher thread\n"]
  else if subscribe_ret ≠ GG_ERR_OK then
    .exited 1 [.setvbuf, .print "Temperature Processor component starting...\n", .gg_sdk_init,
      .ggipc_connect, .print "Connected to Greengrass IPC\n", .pthread_create,
      .subscribe SUBSCRIBE_TOPIC, .eprint "Failed to subscribe to topic\n"]
  else
    .heartbeat [.setvbuf, .print "Temperature Processor component starting...\n", .gg_sdk_init,
      .ggipc_connect, .print "Connected to Greengrass IPC\n", .pthread_create,
      .subscribe SUBSCRIBE_TOPIC, .print "Subscribed to %s\n",
      .print "Waiting for sensor data...\n"]

/-- The function `main` of `v2_controller.c`; the arguments are what
`ggipc_connect`, `pthread_create` and `ggipc_subscribe_to_iot_core` return
when they are called. -/
def v2_controller_main (connect_ret : GgError) (create_ret : Int) (subscribe_ret : GgError) :
    MainOutcome :=
  if connect_ret ≠ GG_ERR_OK then
    .exited 1 [.setvbuf, .print "Device Controller component starting...\n", .gg_sdk_init,
      .ggipc_connect, .eprint "Failed to connect to Greengrass nucleus\n"]
  else if create_ret ≠ 0 then
    .exited 1 [.setvbuf, .print "Device Controller component starting...\n", .gg_sdk_init,
      .ggipc_connect, .print "Connected to Greengrass IPC\n", .pthread_create,
      .eprint "Failed to create telemetry publisher thread\n"]
  else if subscribe_ret ≠ GG_ERR_OK then
    .exited 1 [.setvbuf, .print "Device Controller component starting...\n", .gg_sdk_init,
      .ggipc_connect, .print "Connected to Greengrass IPC\n", .pthread_create,
      .subscribe COMMAND_TOPIC, .eprint "Failed to subscribe to IoT Core topic\n"]
  else
    .heartbeat [.setvbuf, .print "Device Controller component starting...\n", .gg_sdk_init,
      .ggipc_connect, .print "Connected to Greengrass IPC\n", .pthread_create,
      .subscribe COMMAND_TOPIC, .print "Subscribed to %s\n",
      .print "Waiting for commands from IoT Core...\n"]

/-- The trace of an outcome. -/
def MainOutcome.trace : MainOutcome → List MainEvent
  | .exited _ tr => tr
  | .heartbeat tr => tr

/-- Whether the event is a subscribe call. -/
def MainEvent.isSubscribe : MainEvent → Bool
  | .subscribe _ => true
  | _ => false

/-! ## The mutex along a trace -/

/-- The trace of an iteration. -/
def Iteration.trace {σ : Type} : Iteration σ → List Event
  | .waiting tr => tr
  | .loop_top _ tr => tr

/-- Whether the event reads or writes the slot or the flag. -/
def Event.isAccess : Event → Bool
  | .read_flag => true
  | .write_flag => true
  | .read_slot => true
  | .write_slot => true
  | _ => false

/-- Whether the thread holds the mutex after the event, given whether it held
it before: `pthread_mutex_lock` acquires, `pthread_mutex_unlock` releases, and
`pthread_cond_wait`, called with the mutex held, returns with it held. -/
def Event.holds (held : Bool) : Event → Bool
  | .mutex_lock => true
  | .mutex_unlock => false
  | _ => held

/-- Whether the thread holds the mutex at the end of the trace. -/
def held_at_end (held : Bool) (tr : List Event) : Bool :=
  tr.foldl Event.holds held

/-- Whether some publish call of the trace is made while the thread holds the
mutex. -/
def publishes_locked : Bool → List Event → Bool
  | _, [] => false
  | held, e :: rest => (held && e.isPublish) || publishes_locked (e.holds held) rest

/-- Whether some access to the slot or the flag in the trace is made while the
thread does not hold the mutex. -/
def accesses_unlocked : Bool → List Event → Bool
  | _, [] => false
  | held, e :: rest => (!held && e.isAccess) || accesses_unlocked (e.holds held) rest

/-- Whether the event locks the mutex. -/
def Event.isLock : Event → Bool
  | .mutex_lock => true
  | _ => false

/-! ## Bounded strings -/

/-- A 64-byte field holding a NUL-terminated string: the array has 64 bytes and
the string before its first NUL has at most 63. -/
def bounded_string (a : Bytes) : Prop := a.length = 64 ∧ (cstr a).length ≤ 63

instance (a : Bytes) : Decidable (bounded_string a) := by
  unfold bounded_string
  infer_instance

/-- Both string fields of the controller slot are bounded strings. -/
def controller_bounded (st : ControllerState) : Prop :=
  bounded_string st.pending_command.command ∧ bounded_string st.pending_command.device_id

instance (st : ControllerState) : Decidable (controller_bounded st) := by
  unfold controller_bounded
  infer_instance

/-- The string field of the processor slot is a bounded string. -/
def processor_bounded (st : ProcessorState) : Prop :=
  bounded_string st.pending_alert.sensor_id

instance (st : ProcessorState) : Decidable (processor_bounded st) := by
  unfold processor_bounded
  infer_instance

/-- The length of the `sensor_id` buffer that `on_sensor_data` would print
fits in an `int`. -/
def sensor_len_fits (sdk : SdkMismatch) (obj : GgObject) : Prop :=
  ∀ kvs sid, obj = .map kvs → gg_map_get kvs (ascii "sensor_id") = some sid →
    (gg_obj_into_buf sdk sid).length < 2 ^ 31

/-! ## Several threads on one mutex -/

/-- A step of a thread in a run of several threads: a call of its trace, or
the return of a pending `pthread_cond_wait`, which reacquires the mutex. The
call of `pthread_cond_wait` itself releases the mutex and blocks. -/
inductive Step where
  | call (e : Event)
  | wake

/-- The steps of a trace: a `pthread_cond_wait` that is followed by a further
call of the trace has returned; one that ends the trace is still blocked. -/
def steps_of : List Event → List Step
  | [] => []
  | e :: rest =>
    match e, rest with
    | .cond_wait, _ :: _ => .call .cond_wait :: .wake :: steps_of rest
    | _, _ => .call e :: steps_of rest

/-- Whether the thread holds the mutex after the step, in its own view. -/
def Step.holds (held : Bool) : Step → Bool
  | .call .mutex_lock => true
  | .call .mutex_unlock => false
  | .call .cond_wait => false
  | .wake => true
  | .call _ => held

/-- Whether the step reads or writes the slot or the flag. -/
def Step.isAccess : Step → Bool
  | .call e => e.isAccess
  | .wake => false

/-- Whether the thread holds the mutex after the steps, in its own view. -/
def held_after (held : Bool) (steps : List Step) : Bool :=
  steps.foldl Step.holds held

/-- Whether every access among the steps of one thread is made while the
thread holds the mutex in its own view. -/
def disciplined : Bool → List Step → Bool
  | _, [] => true
  | held, s :: rest => (!s.isAccess || held) && disciplined (s.holds held) rest

/-- The mutex: the holder after thread `i` makes the step, or `none` when the
mutex does not allow the step now. Locking and waking need a free mutex;
unlocking and waiting need the mutex held by `i`. -/
def mutex_step (holder : Option Nat) (i : Nat) : Step → Option (Option Nat)
  | .call .mutex_lock => if holder = none then some (some i) else none
  | .call .mutex_unlock => if holder = some i then some none else none
  | .call .cond_wait => if holder = some i then some none else none
  | .wake => if holder = none then some (some i) else none
  | .call _ => some holder

/-- Whether the mutex allows the schedule, a sequence of steps each made by
the named thread, from the given holder. -/
def allowed : Option Nat → List (Nat × Step) → Bool
  | _, [] => true
  | holder, (i, s) :: rest =>
    match mutex_step holder i s with
    | none => false
    | some next => allowed next rest

/-- Whether every access of the schedule is made by the thread that holds the
mutex at that moment. -/
def accesses_by_holder : Option Nat → List (Nat × Step) → Bool
  | _, [] => true
  | holder, (i, s) :: rest =>
    (!s.isAccess || holder == some i)
      && accesses_by_holder ((mutex_step holder i s).getD holder) rest

/-- The steps of thread `i` in a schedule. -/
def thread_steps (i : Nat) (sched : List (Nat × Step)) : List Step :=
  (sched.filter (fun x => x.1 == i)).map (fun x => x.2)

/-- A trace of a thread of `v2_processor.c`: a handler invocation or a worker
iteration. -/
def processor_trace (tr : List Event) : Prop :=
  (∃ sdk obj st, tr = (on_sensor_data sdk obj st).2)
    ∨ ∃ ret w st, tr = (alert_publisher_thread ret w st).trace

/-- A trace of a thread of `v2_controller.c`: a handler invocation or a worker
iteration. -/
def controller_trace (tr : List Event) : Prop :=
  (∃ payload st, tr = (on_cloud_command payload st).2)
    ∨ ∃ ret now w st, tr = (telemetry_publisher_thread ret now w st).trace

/-- The steps of a thread that runs the given traces one after the other. A
worker iteration that was left waiting is continued by the next iteration of
the list, whose `pthread_mutex_lock` stands for the return of the wait: for
the mutex both are the same step. -/
def steps_of_all (units : List (List Event)) : List Step :=
  (units.map steps_of).flatten

/-- Whether the event is a call of `pthread_cond_wait`. -/
def Event.isWait : Event → Bool
  | .cond_wait => true
  | _ => false

/-- A trace whose steps keep the discipline from a free mutex and leave the
mutex released by the thread. -/
def unit_ok (tr : List Event) : Prop :=
  disciplined false (steps_of tr) = true ∧ held_after false (steps_of tr) = false

/-- Whether the step is a publish call. -/
def Step.isPublish : Step → Bool
  | .call e => e.isPublish
  | .wake => false

/-- Whether no publish call among the steps of one thread is made while the
thread holds the mutex in its own view. -/
def publish_unlocked : Bool → List Step → Bool
  | _, [] => true
  | held, s :: rest => !(s.isPublish && held) && publish_unlocked (s.holds held) rest

/-- Whether no publish call of the schedule is made by the thread that holds
the mutex at that moment. -/
def publishes_by_nonholder : Option Nat → List (Nat × Step) → Bool
  | _, [] => true
  | holder, (i, s) :: rest =>
    !(s.isPublish && holder == some i)
      && publishes_by_nonholder ((mutex_step holder i s).getD holder) rest

/-- A trace whose steps make no publish call with the mutex held, from a free
mutex, and leave the mutex released by the thread. -/
def unit_publish_ok (tr : List Event) : Prop :=
  publish_unlocked false (steps_of tr) = true ∧ held_after false (steps_of tr) = false

/-! ## Sample inputs -/

/-- An SDK whose accessors return empty and zero values on a type mismatch. -/
def sdk_zero : SdkMismatch :=
  { map_of := fun _ => [], buf_of := fun _ => [], i64_of := fun _ => 0 }

/-- The pairs of the map object with a buffer `sensor_id` and an integer
`temperature`. -/
def sensor_map (s : Bytes) (t : Int) : List (Bytes × GgObject) :=
  [(ascii "sensor_id", .buf s), (ascii "temperature", .i64 t)]

/-- A mailbox of `v2_processor.c` that holds an undelivered alert. -/
def processor_pending : ProcessorState :=
  { pending_alert := { sensor_id := ascii "s0" ++ List.replicate 62 0, temperature := 99 },
    has_pending_alert := true }

/-- A mailbox of `v2_controller.c` that holds an undelivered `get_status`
command. -/
def controller_pending : ControllerState :=
  { pending_command :=
      { device_id := ascii "device1" ++ List.replicate 57 0,
        command := ascii "get_status" ++ List.replicate 54 0 },
    has_pending_command := true }

/-- The compact payload with the single field `command`. -/
def command_payload (c : Bytes) : Bytes :=
  ascii "\x7b\"command\":\"" ++ c ++ ascii "\"\x7d"

/-- The compact JSON text `{"sensor_id":"s","temperature":t}`. -/
def sensor_json (s : Bytes) (t : Int) : Bytes :=
  ascii "\x7b\"sensor_id\":\"" ++ s ++ ascii "\",\"temperature\":" ++ fmt_ld t ++ ascii "\x7d"

/-- The compact payload `{"command":"c","device_id":"d"}`. -/
def command_device_payload (c d : Bytes) : Bytes :=
  ascii "\x7b\"command\":\"" ++ c ++ ascii "\",\"device_id\":\"" ++ d ++ ascii "\"\x7d"

/-- The compact payload `{"device_id":"d","command":"c"}`. -/
def device_command_payload (c d : Bytes) : Bytes :=
  ascii "\x7b\"device_id\":\"" ++ d ++ ascii "\",\"command\":\"" ++ c ++ ascii "\"\x7d"

/-- The compact text `{"k1":"v1","k2":"v2"}` of an object with two string
members. -/
def two_fields (k1 v1 k2 v2 : Bytes) : Bytes :=
  123 :: 34 :: (k1 ++ 34 :: 58 :: 34 :: (v1 ++ 34 :: 44 :: 34 ::
    (k2 ++ 34 :: 58 :: 34 :: (v2 ++ 34 :: [125]))))

/-- The steps of a trace, each made by thread `i`. -/
def by_thread (i : Nat) (tr : List Event) : List (Nat × Step) :=
  (steps_of tr).map (fun s => (i, s))

/-- A schedule of two threads of `v2_processor.c`: the worker, thread 1, finds
the mailbox empty and waits; the handler, thread 0, puts the alert of sensor
`s1`; the worker goes through its loop body again, takes the alert and
publishes it. -/
def sample_schedule : List (Nat × Step) :=
  by_thread 1 (alert_publisher_thread GG_ERR_OK 0 ProcessorState.init).trace
    ++ by_thread 0
        (on_sensor_data sdk_zero (.map (sensor_map (ascii "s1") 85)) ProcessorState.init).2
    ++ by_thread 1 (alert_publisher_thread GG_ERR_OK 0
        (on_sensor_data sdk_zero (.map (sensor_map (ascii "s1") 85))
          ProcessorState.init).1).trace

/-! ## Lemmas on the C library model -/

theorem cstr_append_nul (l r : Bytes) (h : ∀ b ∈ l, b ≠ 0) : cstr (l ++ 0 :: r) = l := by
  induction l with
  | nil => simp [cstr]
  | cons a t ih =>
    have ha : a ≠ 0 := h a (List.mem_cons_self a t)
    have ht : ∀ b ∈ t, b ≠ 0 := fun b hb => h b (List.mem_cons_of_mem a hb)
    have hb : (a != 0) = true := by simpa using ha
    have := ih ht
    simp only [cstr] at this ⊢
    simp only [List.cons_append, List.takeWhile_cons, hb, if_true, this]

theorem cstr_no_nul (a : Bytes) : ∀ b ∈ cstr a, b ≠ 0 := by
  intro b hb
  have := List.mem_takeWhile_imp hb
  simpa using this

theorem cstr_of_no_nul (l : Bytes) (h : ∀ b ∈ l, b ≠ 0) : cstr l = l := by
  induction l with
  | nil => simp [cstr]
  | cons a t ih =>
    have ha : a ≠ 0 := h a (List.mem_cons_self a t)
    have hb : (a != 0) = true := by simpa using ha
    have ht : ∀ b ∈ t, b ≠ 0 := fun b hb => h b (List.mem_cons_of_mem a hb)
    have h2 := ih ht
    simp only [cstr] at h2 ⊢
    simp only [List.takeWhile_cons, hb, if_true, h2]

theorem fmt_prec_s_no_nul (prec : Int) (data : Bytes) : ∀ b ∈ fmt_prec_s prec data, b ≠ 0 := by
  unfold fmt_prec_s
  split
  · exact cstr_no_nul _
  · exact cstr_no_nul _

theorem cstr_snprintf (dst out : Bytes) (size : Nat) (hs : 0 < size) (h : ∀ b ∈ out, b ≠ 0) :
    cstr (snprintf dst size out) = out.take (size - 1) := by
  have hne : size ≠ 0 := Nat.pos_iff_ne_zero.mp hs
  simp only [snprintf, hne, if_false, write_bytes, List.append_assoc, List.singleton_append]
  exact cstr_append_nul _ _ (fun b hb => h b (List.mem_of_mem_take hb))

theorem int_of_size_t_small (n : Nat) (h : n < 2 ^ 31) : int_of_size_t n = (n : Int) := by
  have h1 : n % 2 ^ 32 = n := Nat.mod_eq_of_lt (by omega)
  unfold int_of_size_t
  rw [h1, if_pos h]

theorem fmt_prec_s_full (data : Bytes) (hlen : data.length < 2 ^ 31) (h : ∀ b ∈ data, b ≠ 0) :
    fmt_prec_s (int_of_size_t data.length) data = data := by
  rw [int_of_size_t_small _ hlen]
  have hneg : ¬ ((data.length : Int) < 0) := by omega
  simp only [fmt_prec_s, hneg, if_false, Int.toNat_ofNat, List.take_length]
  exact cstr_of_no_nul data h

theorem wait_loop_true (n : Nat) : wait_loop true n = (true, [.read_flag]) := by
  cases n <;> simp [wait_loop]

theorem wait_loop_false_fst (n : Nat) : (wait_loop false n).1 = false := by
  induction n with
  | zero => simp [wait_loop]
  | succ k ih => simp [wait_loop, ih]

/-! ## Lemmas on v2_processor.c -/

theorem alert_take_pending (w : Nat) (st : ProcessorState) (h : st.has_pending_alert = true) :
    alert_take w st = .taken st.pending_alert { st with has_pending_alert := false }
      [.mutex_lock, .read_flag, .read_slot, .write_flag, .mutex_unlock] := by
  simp [alert_take, h, wait_loop_true]

theorem alert_take_empty (w : Nat) (st : ProcessorState) (h : st.has_pending_alert = false) :
    alert_take w st = .blocked (.mutex_lock :: (wait_loop false w).2) := by
  simp [alert_take, h, wait_loop_false_fst]

theorem on_sensor_data_put (sdk : SdkMismatch) (kvs : List (Bytes × GgObject))
    (sid tobj : GgObject) (st : ProcessorState)
    (hs : gg_map_get kvs (ascii "sensor_id") = some sid)
    (ht : gg_map_get kvs (ascii "temperature") = some tobj)
    (hgt : gg_obj_into_i64 sdk tobj > 80) :
    on_sensor_data sdk (.map kvs) st =
      ({ pending_alert :=
           { sensor_id :=
               snprintf st.pending_alert.sensor_id 64
                 (fmt_prec_s (int_of_size_t (gg_obj_into_buf sdk sid).length)
                   (gg_obj_into_buf sdk sid)),
             temperature := gg_obj_into_i64 sdk tobj },
         has_pending_alert := true },
       [.print "Received from sensor %.*s: %lld°F\n", .mutex_lock, .write_slot,
        .write_slot, .write_flag, .cond_signal, .mutex_unlock]) := by
  simp [on_sensor_data, gg_obj_type, gg_obj_into_map, hs, ht, hgt]

theorem run_sensor_handlers_append (sdk : SdkMismatch) (ps : List GgObject) (p : GgObject)
    (st : ProcessorState) :
    run_sensor_handlers sdk (ps ++ [p]) st
      = (on_sensor_data sdk p (run_sensor_handlers sdk ps st)).1 := by
  simp [run_sensor_handlers, List.foldl_append]

theorem alert_take_after_put (sdk : SdkMismatch) (st : ProcessorState)
    (kvs : List (Bytes × GgObject)) (sid tobj : GgObject) (w : Nat)
    (hs : gg_map_get kvs (ascii "sensor_id") = some sid)
    (ht : gg_map_get kvs (ascii "temperature") = some tobj)
    (hgt : gg_obj_into_i64 sdk tobj > 80) :
    ∃ rec st1 tr,
      alert_take w (on_sensor_data sdk (.map kvs) st).1 = .taken rec st1 tr
      ∧ rec = (on_sensor_data sdk (.map kvs) st).1.pending_alert
      ∧ rec.temperature = gg_obj_into_i64 sdk tobj
      ∧ cstr rec.sensor_id
          = (fmt_prec_s (int_of_size_t (gg_obj_into_buf sdk sid).length)
              (gg_obj_into_buf sdk sid)).take 63
      ∧ st1.has_pending_alert = false := by
  rw [on_sensor_data_put sdk kvs sid tobj _ hs ht hgt]
  exact ⟨_, _, _, alert_take_pending w _ rfl, rfl, rfl,
    cstr_snprintf _ _ 64 (by decide) (fmt_prec_s_no_nul _ _), rfl⟩

/-! ## Claims on v2_processor.c -/

/-- C1. Latest-wins in `v2_processor.c`: after any run of `on_sensor_data`
invocations from any mailbox state that ends with an invocation passing the
threshold, with no take in between, the take of `alert_publisher_thread`
returns the record stored by that last invocation (its temperature, and as id
the text of `%.*s` over its `sensor_id` cut to 63 bytes), whatever the earlier
invocations stored; the take clears the flag, so that no later take without a
new put returns anything. -/
theorem latest_wins_sensor (sdk : SdkMismatch) (st : ProcessorState) (earlier : List GgObject)
    (kvs : List (Bytes × GgObject)) (sid tobj : GgObject) (w : Nat)
    (hs : gg_map_get kvs (ascii "sensor_id") = some sid)
    (ht : gg_map_get kvs (ascii "temperature") = some tobj)
    (hgt : gg_obj_into_i64 sdk tobj > 80) :
    ∃ rec st1 tr,
      alert_take w (run_sensor_handlers sdk (earlier ++ [.map kvs]) st) = .taken rec st1 tr
      ∧ rec = (on_sensor_data sdk (.map kvs) (run_sensor_handlers sdk earlier st)).1.pending_alert
      ∧ rec.temperature = gg_obj_into_i64 sdk tobj
      ∧ cstr rec.sensor_id
          = (fmt_prec_s (int_of_size_t (gg_obj_into_buf sdk sid).length)
              (gg_obj_into_buf sdk sid)).take 63
      ∧ st1.has_pending_alert = false
      ∧ ∀ w1, ∃ tr1, alert_take w1 st1 = .blocked tr1 := by
  rw [run_sensor_handlers_append]
  obtain ⟨rec, st1, tr, h1, h2, h3, h4, h5⟩ :=
    alert_take_after_put sdk (run_sensor_handlers sdk earlier st) kvs sid tobj w hs ht hgt
  exact ⟨rec, st1, tr, h1, h2, h3, h4, h5, fun w1 => ⟨_, alert_take_empty w1 st1 h5⟩⟩

/-- Instance of C1: two earlier alerts, then `s1` at 85 degrees. -/
theorem latest_wins_sensor_witness :
    gg_map_get (sensor_map (ascii "s1") 85) (ascii "sensor_id") = some (.buf (ascii "s1"))
    ∧ gg_map_get (sensor_map (ascii "s1") 85) (ascii "temperature") = some (.i64 85)
    ∧ gg_obj_into_i64 sdk_zero (.i64 85) > 80
    ∧ ∃ rec st1 tr,
      alert_take 0 (run_sensor_handlers sdk_zero
          ([.map (sensor_map (ascii "a") 90), .map (sensor_map (ascii "b") 100)]
            ++ [.map (sensor_map (ascii "s1") 85)]) processor_pending) = .taken rec st1 tr
      ∧ rec = (on_sensor_data sdk_zero (.map (sensor_map (ascii "s1") 85))
          (run_sensor_handlers sdk_zero
            [.map (sensor_map (ascii "a") 90), .map (sensor_map (ascii "b") 100)]
            processor_pending)).1.pending_alert
      ∧ rec.temperature = gg_obj_into_i64 sdk_zero (.i64 85)
      ∧ cstr rec.sensor_id
          = (fmt_prec_s (int_of_size_t (gg_obj_into_buf sdk_zero (.buf (ascii "s1"))).length)
              (gg_obj_into_buf sdk_zero (.buf (ascii "s1")))).take 63
      ∧ st1.has_pending_alert = false
      ∧ ∀ w1, ∃ tr1, alert_take w1 st1 = .blocked tr1 :=
  ⟨rfl, rfl, by decide,
    latest_wins_sensor sdk_zero processor_pending
      [.map (sensor_map (ascii "a") 90), .map (sensor_map (ascii "b") 100)]
      (sensor_map (ascii "s1") 85) (.buf (ascii "s1")) (.i64 85) 0 rfl rfl (by decide)⟩

theorem alert_take_taken_inv (w : Nat) (s s1 : ProcessorState) (rec : AlertData)
    (tr : List Event) (h : alert_take w s = .taken rec s1 tr) :
    s.has_pending_alert = true ∧ rec = s.pending_alert ∧ s1.has_pending_alert = false
      ∧ s1.pending_alert = s.pending_alert := by
  cases hf : s.has_pending_alert with
  | false => rw [alert_take_empty w s hf] at h; cases h
  | true =>
    rw [alert_take_pending w s hf] at h
    cases h
    exact ⟨rfl, rfl, rfl, rfl⟩

theorem alert_publisher_thread_empty (ret : GgError) (w : Nat) (st : ProcessorState)
    (h : st.has_pending_alert = false) :
    alert_publisher_thread ret w st = .waiting (.mutex_lock :: (wait_loop false w).2) := by
  simp [alert_publisher_thread, alert_take_empty w st h]

/-- C2. Take needs data and consumes it, in `v2_processor.c`: the flag is false
at start; the take of the worker returns a record only from a state whose flag
is true, returns the slot of that state and leaves the flag false; and after
put(A), put(B) the take returns B, after which a further take with no new put
returns no record and the worker stays in its wait loop, for every number of
wake-ups. -/
theorem take_needs_data_and_consumes (sdk : SdkMismatch) (st : ProcessorState)
    (a b : Bytes) (ta tb : Int) (w : Nat) (ha : ta > 80) (hb : tb > 80) :
    ProcessorState.init.has_pending_alert = false
    ∧ (∀ w0 s rec s1 tr, alert_take w0 s = .taken rec s1 tr →
        s.has_pending_alert = true ∧ rec = s.pending_alert ∧ s1.has_pending_alert = false)
    ∧ (∀ w0 s, s.has_pending_alert = false → ∃ tr, alert_take w0 s = .blocked tr)
    ∧ (run_sensor_handlers sdk [.map (sensor_map a ta)] st).has_pending_alert = true
    ∧ (run_sensor_handlers sdk [.map (sensor_map a ta)] st).pending_alert.temperature = ta
    ∧ ∃ rec st1 tr,
        alert_take w (run_sensor_handlers sdk
          ([.map (sensor_map a ta)] ++ [.map (sensor_map b tb)]) st) = .taken rec st1 tr
        ∧ rec.temperature = tb
        ∧ cstr rec.sensor_id = (fmt_prec_s (int_of_size_t b.length) b).take 63
        ∧ ∀ w1 ret, ∃ tr1, alert_take w1 st1 = .blocked tr1
            ∧ alert_publisher_thread ret w1 st1 = .waiting tr1 := by
  have hput : run_sensor_handlers sdk [.map (sensor_map a ta)] st
      = (on_sensor_data sdk (.map (sensor_map a ta)) st).1 := rfl
  have hga : gg_obj_into_i64 sdk (.i64 ta) > 80 := ha
  rw [hput, on_sensor_data_put sdk (sensor_map a ta) (.buf a) (.i64 ta) st rfl rfl hga]
  refine ⟨rfl, ?_, ?_, rfl, rfl, ?_⟩
  · intro w0 s rec s1 tr h
    have := alert_take_taken_inv w0 s s1 rec tr h
    exact ⟨this.1, this.2.1, this.2.2.1⟩
  · intro w0 s h
    exact ⟨_, alert_take_empty w0 s h⟩
  · have hgt : gg_obj_into_i64 sdk (.i64 tb) > 80 := hb
    obtain ⟨rec, st1, tr, h1, _, h3, h4, h5⟩ :=
      alert_take_after_put sdk _ (sensor_map b tb) (.buf b) (.i64 tb) w rfl rfl hgt
    refine ⟨rec, st1, tr, h1, h3, h4, ?_⟩
    intro w1 ret
    exact ⟨_, alert_take_empty w1 st1 h5, alert_publisher_thread_empty ret w1 st1 h5⟩

/-- Instance of C2: put(a, 90), put(b, 100) from the initial mailbox. -/
theorem take_needs_data_and_consumes_witness :
    (90 : Int) > 80 ∧ (100 : Int) > 80
    ∧ ProcessorState.init.has_pending_alert = false
    ∧ (∀ w0 s rec s1 tr, alert_take w0 s = .taken rec s1 tr →
        s.has_pending_alert = true ∧ rec = s.pending_alert ∧ s1.has_pending_alert = false)
    ∧ (∀ w0 s, s.has_pending_alert = false → ∃ tr, alert_take w0 s = .blocked tr)
    ∧ (run_sensor_handlers sdk_zero [.map (sensor_map (ascii "a") 90)]
        ProcessorState.init).has_pending_alert = true
    ∧ (run_sensor_handlers sdk_zero [.map (sensor_map (ascii "a") 90)]
        ProcessorState.init).pending_alert.temperature = 90
    ∧ ∃ rec st1 tr,
        alert_take 3 (run_sensor_handlers sdk_zero
          ([.map (sensor_map (ascii "a") 90)] ++ [.map (sensor_map (ascii "b") 100)])
          ProcessorState.init) = .taken rec st1 tr
        ∧ rec.temperature = 100
        ∧ cstr rec.sensor_id
            = (fmt_prec_s (int_of_size_t (ascii "b").length) (ascii "b")).take 63
        ∧ ∀ w1 ret, ∃ tr1, alert_take w1 st1 = .blocked tr1
            ∧ alert_publisher_thread ret w1 st1 = .waiting tr1 :=
  ⟨by decide, by decide,
    take_needs_data_and_consumes sdk_zero ProcessorState.init (ascii "a") (ascii "b") 90 100 3
      (by decide) (by decide)⟩

/-- C3. In `v2_processor.c`, `on_sensor_data` returns with the mailbox (slot
and flag) unchanged whenever the payload is not a map, or the map lacks the
`sensor_id` key, or lacks the `temperature` key, or has a temperature of at
most 80; the mailbox differs after the call only when both keys are present
and the temperature is above 80. -/
theorem on_sensor_data_frame (sdk : SdkMismatch) (payload : GgObject) (st : ProcessorState) :
    (gg_obj_type payload ≠ .GG_TYPE_MAP → (on_sensor_data sdk payload st).1 = st)
    ∧ (∀ kvs, payload = .map kvs → gg_map_get kvs (ascii "sensor_id") = none →
        (on_sensor_data sdk payload st).1 = st)
    ∧ (∀ kvs, payload = .map kvs → gg_map_get kvs (ascii "temperature") = none →
        (on_sensor_data sdk payload st).1 = st)
    ∧ (∀ kvs tobj, payload = .map kvs → gg_map_get kvs (ascii "temperature") = some tobj →
        gg_obj_into_i64 sdk tobj ≤ 80 → (on_sensor_data sdk payload st).1 = st)
    ∧ ((on_sensor_data sdk payload st).1 ≠ st →
        ∃ kvs sid tobj, payload = .map kvs ∧ gg_map_get kvs (ascii "sensor_id") = some sid
          ∧ gg_map_get kvs (ascii "temperature") = some tobj
          ∧ gg_obj_into_i64 sdk tobj > 80) := by
  refine ⟨?_, ?_, ?_, ?_, ?_⟩
  · intro h
    simp [on_sensor_data, h]
  · intro kvs hp hs
    subst hp
    simp [on_sensor_data, gg_obj_type, gg_obj_into_map, hs]
  · intro kvs hp ht
    subst hp
    cases hs : gg_map_get kvs (ascii "sensor_id") <;>
      simp [on_sensor_data, gg_obj_type, gg_obj_into_map, hs, ht]
  · intro kvs tobj hp ht hle
    subst hp
    have hn : ¬ gg_obj_into_i64 sdk tobj > 80 := not_lt.mpr hle
    cases hs : gg_map_get kvs (ascii "sensor_id") <;>
      simp [on_sensor_data, gg_obj_type, gg_obj_into_map, hs, ht, hn]
  · intro hne
    cases payload with
    | map kvs =>
      cases hs : gg_map_get kvs (ascii "sensor_id") with
      | none => exact absurd (by simp [on_sensor_data, gg_obj_type, gg_obj_into_map, hs]) hne
      | some sid =>
        cases ht : gg_map_get kvs (ascii "temperature") with
        | none =>
          exact absurd (by simp [on_sensor_data, gg_obj_type, gg_obj_into_map, hs, ht]) hne
        | some tobj =>
          by_cases hgt : gg_obj_into_i64 sdk tobj > 80
          · exact ⟨kvs, sid, tobj, rfl, hs, ht, hgt⟩
          · exact absurd
              (by simp [on_sensor_data, gg_obj_type, gg_obj_into_map, hs, ht, hgt]) hne
    | _ => exact absurd (by simp [on_sensor_data, gg_obj_type]) hne

/-- Instance of C3: a buffer payload, a map without keys, and a reading of
exactly 80 leave a pending mailbox as it is. -/
theorem on_sensor_data_frame_witness :
    (on_sensor_data sdk_zero (.buf (ascii "x")) processor_pending).1 = processor_pending
    ∧ (on_sensor_data sdk_zero (.map []) processor_pending).1 = processor_pending
    ∧ (on_sensor_data sdk_zero (.map (sensor_map (ascii "s1") 80)) processor_pending).1
        = processor_pending :=
  ⟨(on_sensor_data_frame sdk_zero (.buf (ascii "x")) processor_pending).1 (by decide),
   (on_sensor_data_frame sdk_zero (.map []) processor_pending).2.1 [] rfl rfl,
   (on_sensor_data_frame sdk_zero (.map (sensor_map (ascii "s1") 80))
      processor_pending).2.2.2.1 (sensor_map (ascii "s1") 80) (.i64 80) rfl rfl (by decide)⟩

theorem alert_publisher_thread_pending (ret : GgError) (w : Nat) (st : ProcessorState)
    (h : st.has_pending_alert = true) :
    ∃ tr, alert_publisher_thread ret w st = .loop_top { st with has_pending_alert := false } tr
      ∧ tr.filter Event.isPublish
          = [.publish_to_topic_json PUBLISH_TOPIC (alert_payload st.pending_alert)] := by
  by_cases hr : ret = GG_ERR_OK
  · exact ⟨[.mutex_lock, .read_flag, .read_slot, .write_flag, .mutex_unlock,
        .publish_to_topic_json PUBLISH_TOPIC (alert_payload st.pending_alert),
        .print "Alert sent to AlertHandler component\n"],
      by simp [alert_publisher_thread, alert_take_pending w st h, hr], rfl⟩
  · exact ⟨[.mutex_lock, .read_flag, .read_slot, .write_flag, .mutex_unlock,
        .publish_to_topic_json PUBLISH_TOPIC (alert_payload st.pending_alert),
        .eprint "Failed to publish alert\n"],
      by simp [alert_publisher_thread, alert_take_pending w st h, hr], rfl⟩

/-- C4. End-to-end delivery in `v2_processor.c`: for every sensor id `s`
without a NUL byte and of at most 63 bytes and every temperature `t > 80`,
`on_sensor_data` on a map whose `sensor_id` is the buffer `s` and whose
`temperature` is the integer `t`, run from an empty mailbox, followed by one
iteration of `alert_publisher_thread`, takes the record `(s, t)` and makes
exactly one publish call, to `component/alerts`, with the map
`{sensor_id: s, temperature: t, alert: "HIGH_TEMPERATURE"}`. -/
theorem end_to_end_delivery (sdk : SdkMismatch) (st : ProcessorState)
    (kvs : List (Bytes × GgObject)) (s : Bytes) (t : Int) (ret : GgError) (w : Nat)
    (hempty : st.has_pending_alert = false)
    (hs : gg_map_get kvs (ascii "sensor_id") = some (.buf s))
    (ht : gg_map_get kvs (ascii "temperature") = some (.i64 t))
    (hnul : ∀ b ∈ s, b ≠ 0) (hlen : s.length ≤ 63) (hgt : t > 80) :
    (∀ w0, ∃ tr0, alert_take w0 st = .blocked tr0)
    ∧ ∃ rec st1 tr1 st2 tr2,
      alert_take w (on_sensor_data sdk (.map kvs) st).1 = .taken rec st1 tr1
      ∧ cstr rec.sensor_id = s ∧ rec.temperature = t
      ∧ alert_publisher_thread ret w (on_sensor_data sdk (.map kvs) st).1 = .loop_top st2 tr2
      ∧ st2.has_pending_alert = false
      ∧ tr2.filter Event.isPublish
          = [.publish_to_topic_json (ascii "component/alerts")
              [(ascii "sensor_id", .buf s), (ascii "temperature", .i64 t),
               (ascii "alert", .buf (ascii "HIGH_TEMPERATURE"))]] := by
  have hgt1 : gg_obj_into_i64 sdk (.i64 t) > 80 := hgt
  have hid : cstr (snprintf st.pending_alert.sensor_id 64
      (fmt_prec_s (int_of_size_t s.length) s)) = s := by
    rw [cstr_snprintf _ _ 64 (by decide) (fmt_prec_s_no_nul _ _),
      fmt_prec_s_full s (by omega) hnul]
    exact List.take_of_length_le (by omega)
  refine ⟨fun w0 => ⟨_, alert_take_empty w0 st hempty⟩, ?_⟩
  rw [on_sensor_data_put sdk kvs (.buf s) (.i64 t) st hs ht hgt1]
  obtain ⟨tr2, hrun, hpub⟩ := alert_publisher_thread_pending ret w
    { pending_alert :=
        { sensor_id := snprintf st.pending_alert.sensor_id 64
            (fmt_prec_s (int_of_size_t (gg_obj_into_buf sdk (.buf s)).length)
              (gg_obj_into_buf sdk (.buf s))),
          temperature := gg_obj_into_i64 sdk (.i64 t) },
      has_pending_alert := true } rfl
  refine ⟨_, _, _, _, tr2, alert_take_pending w _ rfl, hid, rfl, hrun, rfl, ?_⟩
  rw [hpub]
  simp only [alert_payload, PUBLISH_TOPIC]
  rw [show gg_obj_into_buf sdk (.buf s) = s from rfl, hid]
  rfl

/-- Instance of C4: sensor `s1` at 85 degrees, from the initial mailbox, with a
publish that succeeds. -/
theorem end_to_end_delivery_witness :
    ProcessorState.init.has_pending_alert = false
    ∧ gg_map_get (sensor_map (ascii "s1") 85) (ascii "sensor_id") = some (.buf (ascii "s1"))
    ∧ gg_map_get (sensor_map (ascii "s1") 85) (ascii "temperature") = some (.i64 85)
    ∧ (∀ b ∈ ascii "s1", b ≠ 0) ∧ (ascii "s1").length ≤ 63 ∧ (85 : Int) > 80
    ∧ (∀ w0, ∃ tr0, alert_take w0 ProcessorState.init = .blocked tr0)
    ∧ ∃ rec st1 tr1 st2 tr2,
      alert_take 0 (on_sensor_data sdk_zero (.map (sensor_map (ascii "s1") 85))
        ProcessorState.init).1 = .taken rec st1 tr1
      ∧ cstr rec.sensor_id = ascii "s1" ∧ rec.temperature = 85
      ∧ alert_publisher_thread GG_ERR_OK 0
          (on_sensor_data sdk_zero (.map (sensor_map (ascii "s1") 85))
            ProcessorState.init).1 = .loop_top st2 tr2
      ∧ st2.has_pending_alert = false
      ∧ tr2.filter Event.isPublish
          = [.publish_to_topic_json (ascii "component/alerts")
              [(ascii "sensor_id", .buf (ascii "s1")), (ascii "temperature", .i64 85),
               (ascii "alert", .buf (ascii "HIGH_TEMPERATURE"))]] :=
  ⟨rfl, rfl, rfl, by decide, by decide, by decide,
    end_to_end_delivery sdk_zero ProcessorState.init (sensor_map (ascii "s1") 85) (ascii "s1") 85
      GG_ERR_OK 0 rfl rfl rfl (by decide) (by decide) (by decide)⟩

/-! ## Lemmas on v2_controller.c -/

theorem command_take_pending (w : Nat) (st : ControllerState)
    (h : st.has_pending_command = true) :
    command_take w st = .taken st.pending_command { st with has_pending_command := false }
      [.mutex_lock, .read_flag, .read_slot, .write_flag, .mutex_unlock] := by
  simp [command_take, h, wait_loop_true]

theorem command_take_empty (w : Nat) (st : ControllerState)
    (h : st.has_pending_command = false) :
    command_take w st = .blocked (.mutex_lock :: (wait_loop false w).2) := by
  simp [command_take, h, wait_loop_false_fst]

theorem telemetry_publisher_thread_empty (ret : GgError) (now : Int) (w : Nat)
    (st : ControllerState) (h : st.has_pending_command = false) :
    telemetry_publisher_thread ret now w st
      = .waiting (.mutex_lock :: (wait_loop false w).2) := by
  simp [telemetry_publisher_thread, command_take_empty w st h]

theorem telemetry_publisher_thread_pending (ret : GgError) (now : Int) (w : Nat)
    (st : ControllerState) (h : st.has_pending_command = true) :
    ∃ tr, telemetry_publisher_thread ret now w st
        = .loop_top { st with has_pending_command := false } tr
      ∧ tr.filter Event.isPublish
          = if strcmp_eq st.pending_command.command (ascii "get_status") then
              [.publish_to_iot_core TELEMETRY_TOPIC (telemetry_json st.pending_command now) 0]
            else [] := by
  by_cases hc : strcmp_eq st.pending_command.command (ascii "get_status") = true
  · by_cases hr : ret = GG_ERR_OK
    · exact ⟨[.mutex_lock, .read_flag, .read_slot, .write_flag, .mutex_unlock,
          .publish_to_iot_core TELEMETRY_TOPIC (telemetry_json st.pending_command now) 0,
          .print "Telemetry sent to cloud: device_id=%s, status=%s\n"],
        by simp [telemetry_publisher_thread, command_take_pending w st h, hc, hr],
        by simp [hc, List.filter, Event.isPublish]⟩
    · exact ⟨[.mutex_lock, .read_flag, .read_slot, .write_flag, .mutex_unlock,
          .publish_to_iot_core TELEMETRY_TOPIC (telemetry_json st.pending_command now) 0,
          .eprint "Failed to publish telemetry to IoT Core\n"],
        by simp [telemetry_publisher_thread, command_take_pending w st h, hc, hr],
        by simp [hc, List.filter, Event.isPublish]⟩
  · exact ⟨[.mutex_lock, .read_flag, .read_slot, .write_flag, .mutex_unlock],
      by simp [telemetry_publisher_thread, command_take_pending w st h, hc],
      by simp [hc, List.filter, Event.isPublish]⟩

/-! ## Claims on both workers -/

/-- C5. A publish failure is non-fatal in both C workers: for a pending record
and whatever code the publish call returns, the iteration of
`alert_publisher_thread` and of `telemetry_publisher_thread` ends at the top of
the loop with the same mailbox (slot kept, flag cleared) and with the same
publish calls, at most one, as for `GG_ERR_OK`; from that mailbox the worker
waits, and a record put by the handler afterwards is what the next take
returns. -/
theorem publish_failure_non_fatal (ret : GgError) (now : Int) (w : Nat)
    (pst : ProcessorState) (cst : ControllerState)
    (hp : pst.has_pending_alert = true) (hc : cst.has_pending_command = true) :
    (∃ tr tr0,
        alert_publisher_thread ret w pst = .loop_top { pst with has_pending_alert := false } tr
        ∧ alert_publisher_thread GG_ERR_OK w pst
            = .loop_top { pst with has_pending_alert := false } tr0
        ∧ tr.filter Event.isPublish = tr0.filter Event.isPublish
        ∧ (tr.filter Event.isPublish).length = 1)
    ∧ (∀ ret1 w1, ∃ tr1,
        alert_publisher_thread ret1 w1 { pst with has_pending_alert := false } = .waiting tr1)
    ∧ (∀ sdk kvs sid tobj w1, gg_map_get kvs (ascii "sensor_id") = some sid →
        gg_map_get kvs (ascii "temperature") = some tobj → gg_obj_into_i64 sdk tobj > 80 →
        ∃ rec st2 tr2,
          alert_take w1 (on_sensor_data sdk (.map kvs)
            { pst with has_pending_alert := false }).1 = .taken rec st2 tr2
          ∧ rec.temperature = gg_obj_into_i64 sdk tobj
          ∧ cstr rec.sensor_id
              = (fmt_prec_s (int_of_size_t (gg_obj_into_buf sdk sid).length)
                  (gg_obj_into_buf sdk sid)).take 63)
    ∧ (∃ tr tr0,
        telemetry_publisher_thread ret now w cst
          = .loop_top { cst with has_pending_command := false } tr
        ∧ telemetry_publisher_thread GG_ERR_OK now w cst
            = .loop_top { cst with has_pending_command := false } tr0
        ∧ tr.filter Event.isPublish = tr0.filter Event.isPublish
        ∧ (tr.filter Event.isPublish).length ≤ 1)
    ∧ (∀ ret1 now1 w1, ∃ tr1,
        telemetry_publisher_thread ret1 now1 w1 { cst with has_pending_command := false }
          = .waiting tr1)
    ∧ (∀ payload w1,
        (on_cloud_command payload
          { cst with has_pending_command := false }).1.has_pending_command = true →
        ∃ st2 tr2,
          command_take w1 (on_cloud_command payload
            { cst with has_pending_command := false }).1
            = .taken (on_cloud_command payload
                { cst with has_pending_command := false }).1.pending_command st2 tr2) := by
  refine ⟨?_, ?_, ?_, ?_, ?_, ?_⟩
  · obtain ⟨tr, h1, h2⟩ := alert_publisher_thread_pending ret w pst hp
    obtain ⟨tr0, h3, h4⟩ := alert_publisher_thread_pending GG_ERR_OK w pst hp
    exact ⟨tr, tr0, h1, h3, by rw [h2, h4], by rw [h2]; rfl⟩
  · intro ret1 w1
    exact ⟨_, alert_publisher_thread_empty ret1 w1 _ rfl⟩
  · intro sdk kvs sid tobj w1 hs ht hgt
    obtain ⟨rec, st2, tr2, h1, _, h3, h4, _⟩ :=
      alert_take_after_put sdk { pst with has_pending_alert := false } kvs sid tobj w1 hs ht hgt
    exact ⟨rec, st2, tr2, h1, h3, h4⟩
  · obtain ⟨tr, h1, h2⟩ := telemetry_publisher_thread_pending ret now w cst hc
    obtain ⟨tr0, h3, h4⟩ := telemetry_publisher_thread_pending GG_ERR_OK now w cst hc
    refine ⟨tr, tr0, h1, h3, by rw [h2, h4], ?_⟩
    rw [h2]
    split <;> simp
  · intro ret1 now1 w1
    exact ⟨_, telemetry_publisher_thread_empty ret1 now1 w1 _ rfl⟩
  · intro payload w1 h
    exact ⟨_, _, command_take_pending w1 _ h⟩

/-- Instance of C5: the publish returns the error code 1 for the pending
sample records of both programs. -/
theorem publish_failure_non_fatal_witness :
    processor_pending.has_pending_alert = true
    ∧ controller_pending.has_pending_command = true
    ∧ (∃ tr tr0,
        alert_publisher_thread 1 0 processor_pending
          = .loop_top { processor_pending with has_pending_alert := false } tr
        ∧ alert_publisher_thread GG_ERR_OK 0 processor_pending
            = .loop_top { processor_pending with has_pending_alert := false } tr0
        ∧ tr.filter Event.isPublish = tr0.filter Event.isPublish
        ∧ (tr.filter Event.isPublish).length = 1)
    ∧ (∃ tr tr0,
        telemetry_publisher_thread 1 1700000000 0 controller_pending
          = .loop_top { controller_pending with has_pending_command := false } tr
        ∧ telemetry_publisher_thread GG_ERR_OK 1700000000 0 controller_pending
            = .loop_top { controller_pending with has_pending_command := false } tr0
        ∧ tr.filter Event.isPublish = tr0.filter Event.isPublish
        ∧ (tr.filter Event.isPublish).length ≤ 1) :=
  ⟨rfl, rfl,
    (publish_failure_non_fatal 1 1700000000 0 processor_pending controller_pending rfl rfl).1,
    (publish_failure_non_fatal 1 1700000000 0 processor_pending controller_pending
      rfl rfl).2.2.2.1⟩

/-! ## Decoding in v2_controller.c -/

theorem strchr_append_of_not_mem (c r : Bytes) (q : Nat) (h : ∀ b ∈ c, b ≠ q) :
    strchr (c ++ q :: r) q = some (q :: r) := by
  induction c with
  | nil => simp [strchr]
  | cons a t ih =>
    have ha : a ≠ q := h a (List.mem_cons_self a t)
    have ht : ∀ b ∈ t, b ≠ q := fun b hb => h b (List.mem_cons_of_mem a hb)
    simp [strchr, ha, ih ht]

theorem payload_str_of_text (p : Bytes) (h0 : ∀ b ∈ p, b ≠ 0) (hlen : p.length ≤ 511) :
    payload_str p = p := by
  unfold payload_str
  rw [fmt_prec_s_full p (by omega) h0]
  exact List.take_of_length_le hlen

theorem payload_str_eq (p : Bytes) (hlen : p.length < 2 ^ 31) :
    payload_str p = (cstr p).take 511 := by
  unfold payload_str
  rw [int_of_size_t_small _ hlen]
  have hneg : ¬ ((p.length : Int) < 0) := by omega
  simp only [fmt_prec_s, hneg, if_false, Int.toNat_ofNat, List.take_length]

theorem cstr_copy_terminated (field c rest : Bytes) (hlen : c.length < field.length)
    (h0 : ∀ b ∈ c, b ≠ 0) :
    cstr ((strncpy field (c ++ rest) c.length).set c.length 0) = c := by
  have htake : (c ++ rest).take c.length = c := List.take_left' rfl
  have hdrop : ∃ x tl, field.drop c.length = x :: tl := by
    cases hd : field.drop c.length with
    | nil =>
      have := congrArg List.length hd
      simp at this
      omega
    | cons x tl => exact ⟨x, tl, rfl⟩
  obtain ⟨x, tl, hd⟩ := hdrop
  simp only [strncpy, write_bytes, htake, Nat.sub_self, List.replicate_zero, List.append_nil, hd]
  rw [List.set_append_right _ _ (le_refl _)]
  simp only [Nat.sub_self, List.set_cons_zero]
  exact cstr_append_nul c tl h0

theorem extract_value_quoted (c rest field : Bytes) (hq : ∀ b ∈ c, b ≠ 34)
    (hlen : c.length < 64) :
    extract_value (ascii "\"command\":\"" ++ c ++ 34 :: rest) field
      = some ((strncpy field (c ++ 34 :: rest) c.length).set c.length 0) := by
  have hlit : ascii "\"command\":\"" = [34, 99, 111, 109, 109, 97, 110, 100, 34, 58, 34] := rfl
  have hcolon : ascii ":" = [58] := rfl
  have hend : strchr (c ++ 34 :: rest) 34 = some (34 :: rest) :=
    strchr_append_of_not_mem c rest 34 hq
  have hdiff : ptr_diff (34 :: rest) (c ++ 34 :: rest) = c.length := by
    simp [ptr_diff]
  have hopen : strchr (58 :: 34 :: (c ++ 34 :: rest)) 34 = some (34 :: (c ++ 34 :: rest)) := by
    simp [strchr]
  have hfind : strstr ([34, 99, 111, 109, 109, 97, 110, 100, 34, 58, 34] ++ c ++ 34 :: rest) [58]
      = some (58 :: 34 :: (c ++ 34 :: rest)) := by
    simp [strstr, List.isPrefixOf]
  simp only [extract_value, hlit, hcolon, hfind, hopen, List.tail_cons, hend, hdiff]
  simp [hlen]

theorem command_payload_start (c : Bytes) :
    strstr (command_payload c) (ascii "\"command\"")
      = some (ascii "\"command\":\"" ++ c ++ 34 :: [125]) := by
  have hlit : ascii "\x7b\"command\":\""
      = [123, 34, 99, 111, 109, 109, 97, 110, 100, 34, 58, 34] := rfl
  have hkey : ascii "\"command\"" = [34, 99, 111, 109, 109, 97, 110, 100, 34] := rfl
  have hval : ascii "\"command\":\"" = [34, 99, 111, 109, 109, 97, 110, 100, 34, 58, 34] := rfl
  have hpost : ascii "\"\x7d" = [34, 125] := rfl
  simp [command_payload, hlit, hkey, hval, hpost, strstr, List.isPrefixOf]

theorem command_payload_text (c : Bytes) (h0 : ∀ b ∈ c, b ≠ 0) (hlen : c.length < 64) :
    payload_str (command_payload c) = command_payload c := by
  have hlit : ascii "\x7b\"command\":\""
      = [123, 34, 99, 111, 109, 109, 97, 110, 100, 34, 58, 34] := rfl
  have hpost : ascii "\"\x7d" = [34, 125] := rfl
  apply payload_str_of_text
  · intro b hb
    simp only [command_payload, hlit, hpost, List.mem_append, List.mem_cons, List.mem_singleton,
      List.not_mem_nil, or_false] at hb
    rcases hb with (hb | hb) | hb
    · rcases hb with h | h | h | h | h | h | h | h | h | h | h | h <;> omega
    · exact h0 b hb
    · rcases hb with h | h <;> omega
  · simp [command_payload, hlit, hpost]
    omega

theorem on_cloud_command_command_payload (c : Bytes) (st : ControllerState)
    (hq : ∀ b ∈ c, b ≠ 34) (h0 : ∀ b ∈ c, b ≠ 0) (hlen : c.length < 64)
    (hfield : st.pending_command.command.length = 64) :
    (on_cloud_command (command_payload c) st).1.has_pending_command = true
    ∧ cstr (on_cloud_command (command_payload c) st).1.pending_command.command = c := by
  have hfa : cstr (field_after (ascii "\"command\":\"" ++ c ++ 34 :: [125])
      st.pending_command.command) = c := by
    rw [field_after, extract_value_quoted c [125] _ hq hlen]
    exact cstr_copy_terminated _ c _ (by omega) h0
  unfold on_cloud_command
  rw [command_payload_text c h0 hlen, command_payload_start c]
  cases strstr (command_payload c) (ascii "\"device_id\"") with
  | none => exact ⟨rfl, hfa⟩
  | some d => exact ⟨rfl, hfa⟩

theorem strstr_eq_none_iff (hay needle : Bytes) :
    strstr hay needle = none ↔ ¬ needle <:+: hay := by
  induction hay with
  | nil => cases needle <;> simp [strstr]
  | cons h t ih =>
    by_cases hp : needle.isPrefixOf (h :: t) = true
    · have hpre : needle <+: h :: t := List.isPrefixOf_iff_prefix.mp hp
      simp [strstr, hp, hpre.isInfix]
    · have hpre : ¬ needle <+: h :: t := fun hh => hp (List.isPrefixOf_iff_prefix.mpr hh)
      simp only [strstr, hp, Bool.false_eq_true, if_false, ih, List.infix_cons_iff, hpre,
        false_or]

/-! ## Claims on v2_controller.c -/

/-- C6. Evaluation of `on_cloud_command` where the slot is not replaced: the
payload `{"command": 5}` has the `"command"` key but no quoted value, so the
store of `pending_command.command` is skipped while `has_pending_command` is
still set. From the mailbox left by `{"command":"get_status"}` the command
stays `get_status`, from the zeroed mailbox it stays empty: the same payload leaves
two different records, and after a delivered `get_status` the worker publishes
telemetry again for it. -/
theorem stale_command_survives :
    (on_cloud_command (ascii "\x7b\"command\":\"get_status\"\x7d") ControllerState.init).1
      = controller_pending
    ∧ (on_cloud_command (ascii "\x7b\"command\": 5\x7d") controller_pending).1.has_pending_command
      = true
    ∧ cstr (on_cloud_command (ascii "\x7b\"command\": 5\x7d")
        controller_pending).1.pending_command.command = ascii "get_status"
    ∧ (on_cloud_command (ascii "\x7b\"command\": 5\x7d")
        ControllerState.init).1.has_pending_command = true
    ∧ cstr (on_cloud_command (ascii "\x7b\"command\": 5\x7d")
        ControllerState.init).1.pending_command.command = []
    ∧ ∃ st1 tr,
        telemetry_publisher_thread GG_ERR_OK 1700000000 0
          (on_cloud_command (ascii "\x7b\"command\": 5\x7d")
            { controller_pending with has_pending_command := false }).1 = .loop_top st1 tr
        ∧ tr.filter Event.isPublish
            = [.publish_to_iot_core TELEMETRY_TOPIC
                (ascii "\x7b\"device_id\":\"device1\",\"status\":\"online\",\"timestamp\":1700000000\x7d")
                0] := by
  refine ⟨by decide, by decide, by decide, by decide, by decide, ?_⟩
  obtain ⟨tr, h1, h2⟩ := telemetry_publisher_thread_pending GG_ERR_OK 1700000000 0
    (on_cloud_command (ascii "\x7b\"command\": 5\x7d")
      { controller_pending with has_pending_command := false }).1 (by decide)
  refine ⟨_, tr, h1, ?_⟩
  rw [h2]
  rfl

/-- C7, the claim as stated fails: from the initial mailbox the payload
`{"command":"reboot"}` makes `on_cloud_command` set `has_pending_command` and
store `reboot` in `pending_command.command`. -/
theorem reboot_is_stored :
    (on_cloud_command (ascii "\x7b\"command\":\"reboot\"\x7d")
        ControllerState.init).1.has_pending_command = true
    ∧ ControllerState.init.has_pending_command = false
    ∧ cstr (on_cloud_command (ascii "\x7b\"command\":\"reboot\"\x7d")
        ControllerState.init).1.pending_command.command = ascii "reboot"
    ∧ cstr ControllerState.init.pending_command.command = [] := by
  decide

/-- C7, amended. For every command text `c` other than `get_status` (without
double quote or NUL byte and shorter than 64 bytes), `on_cloud_command` on the
payload `{"command":"c"}` stores `c` in `pending_command.command` and sets
`has_pending_command`, from every mailbox; the predicate is applied by
`telemetry_publisher_thread`, which takes that record, clears the flag and
ends its iteration without a publish call. -/
theorem predicate_applied_by_worker (c : Bytes) (st : ControllerState) (ret : GgError)
    (now : Int) (w : Nat)
    (hq : ∀ b ∈ c, b ≠ 34) (h0 : ∀ b ∈ c, b ≠ 0) (hlen : c.length < 64)
    (hfield : st.pending_command.command.length = 64) (hne : c ≠ ascii "get_status") :
    (on_cloud_command (command_payload c) st).1.has_pending_command = true
    ∧ cstr (on_cloud_command (command_payload c) st).1.pending_command.command = c
    ∧ ∃ rec st1 tr0 tr,
        command_take w (on_cloud_command (command_payload c) st).1 = .taken rec st1 tr0
        ∧ cstr rec.command = c
        ∧ telemetry_publisher_thread ret now w (on_cloud_command (command_payload c) st).1
            = .loop_top st1 tr
        ∧ st1.has_pending_command = false
        ∧ tr.filter Event.isPublish = [] := by
  obtain ⟨hflag, hcmd⟩ := on_cloud_command_command_payload c st hq h0 hlen hfield
  refine ⟨hflag, hcmd, ?_⟩
  obtain ⟨tr, h1, h2⟩ := telemetry_publisher_thread_pending ret now w _ hflag
  refine ⟨_, _, _, tr, command_take_pending w _ hflag, hcmd, h1, rfl, ?_⟩
  rw [h2]
  have : strcmp_eq (on_cloud_command (command_payload c) st).1.pending_command.command
      (ascii "get_status") = false := by
    simp [strcmp_eq, hcmd, hne]
  simp [this]

/-- Instance of C7 amended: the command `reboot` from the initial mailbox, with
a publish that would succeed. -/
theorem predicate_applied_by_worker_witness :
    (∀ b ∈ ascii "reboot", b ≠ 34) ∧ (∀ b ∈ ascii "reboot", b ≠ 0)
    ∧ (ascii "reboot").length < 64
    ∧ ControllerState.init.pending_command.command.length = 64
    ∧ ascii "reboot" ≠ ascii "get_status"
    ∧ (on_cloud_command (command_payload (ascii "reboot"))
        ControllerState.init).1.has_pending_command = true
    ∧ cstr (on_cloud_command (command_payload (ascii "reboot"))
        ControllerState.init).1.pending_command.command = ascii "reboot"
    ∧ ∃ rec st1 tr0 tr,
        command_take 0 (on_cloud_command (command_payload (ascii "reboot"))
          ControllerState.init).1 = .taken rec st1 tr0
        ∧ cstr rec.command = ascii "reboot"
        ∧ telemetry_publisher_thread GG_ERR_OK 1700000000 0
            (on_cloud_command (command_payload (ascii "reboot")) ControllerState.init).1
            = .loop_top st1 tr
        ∧ st1.has_pending_command = false
        ∧ tr.filter Event.isPublish = [] :=
  ⟨by decide, by decide, by decide, by decide, by decide,
    predicate_applied_by_worker (ascii "reboot") ControllerState.init GG_ERR_OK 1700000000 0
      (by decide) (by decide) (by decide) (by decide) (by decide)⟩

/-- C8, the claim as stated fails: the payload `not json "command":"go"` is
not a JSON object, and from the initial mailbox `on_cloud_command` sets
`has_pending_command` and stores `go` in `pending_command.command`. -/
theorem non_json_text_is_stored :
    (on_cloud_command (ascii "not json \"command\":\"go\"")
        ControllerState.init).1.has_pending_command = true
    ∧ ControllerState.init.has_pending_command = false
    ∧ cstr (on_cloud_command (ascii "not json \"command\":\"go\"")
        ControllerState.init).1.pending_command.command = ascii "go"
    ∧ cstr ControllerState.init.pending_command.command = [] := by
  decide

/-- C8, amended. The handler scans the payload as text: up to its first NUL
byte and at most 511 bytes. For every payload whose scanned text does not
contain the nine characters `"command"`, `on_cloud_command` returns with
`pending_command` and `has_pending_command` unchanged, so that an empty
mailbox stays empty and the take keeps waiting. -/
theorem payload_without_key_ignored (payload : Bytes) (st : ControllerState) :
    (payload.length < 2 ^ 31 → payload_str payload = (cstr payload).take 511)
    ∧ (¬ ascii "\"command\"" <:+: payload_str payload →
        (on_cloud_command payload st).1 = st
        ∧ (on_cloud_command payload st).2 = [.print "Received command from IoT Core: %.*s\n"]
        ∧ (st.has_pending_command = false →
            ∀ w, ∃ tr, command_take w (on_cloud_command payload st).1 = .blocked tr)) := by
  refine ⟨payload_str_eq payload, ?_⟩
  intro h
  have hnone := (strstr_eq_none_iff _ _).mpr h
  have hst : on_cloud_command payload st
      = (st, [.print "Received command from IoT Core: %.*s\n"]) := by
    simp [on_cloud_command, hnone]
  rw [hst]
  exact ⟨rfl, rfl, fun hf w => ⟨_, command_take_empty w st hf⟩⟩

/-- Instance of C8 amended: the payload `{not json` on the initial mailbox. -/
theorem payload_without_key_ignored_witness :
    (ascii "\x7bnot json").length < 2 ^ 31
    ∧ ¬ ascii "\"command\"" <:+: payload_str (ascii "\x7bnot json")
    ∧ ControllerState.init.has_pending_command = false
    ∧ payload_str (ascii "\x7bnot json") = (cstr (ascii "\x7bnot json")).take 511
    ∧ (on_cloud_command (ascii "\x7bnot json") ControllerState.init).1 = ControllerState.init
    ∧ ∀ w, ∃ tr, command_take w (on_cloud_command (ascii "\x7bnot json")
        ControllerState.init).1 = .blocked tr :=
  have hno : ¬ ascii "\"command\"" <:+: payload_str (ascii "\x7bnot json") :=
    (strstr_eq_none_iff _ _).mp (by decide)
  ⟨by decide, hno, rfl,
    (payload_without_key_ignored (ascii "\x7bnot json") ControllerState.init).1 (by decide),
    ((payload_without_key_ignored (ascii "\x7bnot json") ControllerState.init).2 hno).1,
    ((payload_without_key_ignored (ascii "\x7bnot json") ControllerState.init).2 hno).2.2 rfl⟩

/-! ## Claims on v2_processor.cpp -/

/-- C9. Evaluation of `SensorCallback::operator()` where an exception leaves
the handler: on the buffers `{"temperature":abc}` and `{"temperature":}` the
text handed to `std::stoll` has no digit, `std::invalid_argument` is thrown and
nothing in the handler catches it; on a value beyond `long long` it is
`std::out_of_range`. -/
theorem stoll_exception_leaves_handler (st : CppProcessorState) :
    SensorCallback (.buf (ascii "\x7b\"temperature\":abc\x7d")) st = .error .invalid_argument
    ∧ SensorCallback (.buf (ascii "\x7b\"temperature\":\x7d")) st = .error .invalid_argument
    ∧ SensorCallback (.buf (ascii "\x7b\"temperature\":99999999999999999999\x7d")) st
        = .error .out_of_range :=
  ⟨rfl, rfl, rfl⟩

/-! ## Claims on both handlers -/

theorem extract_events_cases (start field : Bytes) :
    extract_events start field = [] ∨ extract_events start field = [.write_slot] := by
  unfold extract_events
  split
  · exact Or.inr rfl
  · exact Or.inl rfl

theorem on_sensor_data_trace (sdk : SdkMismatch) (obj : GgObject) (pst : ProcessorState) :
    ((on_sensor_data sdk obj pst).2
        = [.print "Received from sensor %.*s: %lld°F\n", .mutex_lock, .write_slot,
            .write_slot, .write_flag, .cond_signal, .mutex_unlock])
    ∨ ((on_sensor_data sdk obj pst).1 = pst
        ∧ ((on_sensor_data sdk obj pst).2 = [.eprint "Expected JSON message\n"]
          ∨ (on_sensor_data sdk obj pst).2 = [.eprint "Missing sensor_id field\n"]
          ∨ (on_sensor_data sdk obj pst).2 = [.eprint "Missing temperature field\n"]
          ∨ (on_sensor_data sdk obj pst).2
              = [.print "Received from sensor %.*s: %lld°F\n"])) := by
  unfold on_sensor_data
  split
  · exact Or.inr ⟨rfl, Or.inl rfl⟩
  · split
    · exact Or.inr ⟨rfl, Or.inr (Or.inl rfl)⟩
    · split
      · exact Or.inr ⟨rfl, Or.inr (Or.inr (Or.inl rfl))⟩
      · split
        · exact Or.inl rfl
        · exact Or.inr ⟨rfl, Or.inr (Or.inr (Or.inr rfl))⟩

theorem on_cloud_command_trace (payload : Bytes) (cst : ControllerState) :
    (on_cloud_command payload cst
        = (cst, [.print "Received command from IoT Core: %.*s\n"]))
    ∨ ∃ writes, (∀ e ∈ writes, e = Event.write_slot)
        ∧ (on_cloud_command payload cst).2
            = [.print "Received command from IoT Core: %.*s\n", .mutex_lock] ++ writes
                ++ [.read_slot, .print "Received command from cloud: %s\n", .write_flag,
                    .cond_signal, .mutex_unlock] := by
  cases hs : strstr (payload_str payload) (ascii "\"command\"") with
  | none =>
    left
    unfold on_cloud_command
    rw [hs]
  | some start =>
    right
    cases hd : strstr (payload_str payload) (ascii "\"device_id\"") with
    | none =>
      refine ⟨extract_events start cst.pending_command.command ++ [.write_slot], ?_, ?_⟩
      · intro e he
        rcases extract_events_cases start cst.pending_command.command with h1 | h1 <;>
          simp [h1] at he <;> exact he
      · unfold on_cloud_command
        rw [hs, hd]
        simp
    | some dstart =>
      refine ⟨extract_events start cst.pending_command.command
        ++ extract_events dstart cst.pending_command.device_id, ?_, ?_⟩
      · intro e he
        rcases extract_events_cases start cst.pending_command.command with h1 | h1 <;>
          rcases extract_events_cases dstart cst.pending_command.device_id with h2 | h2 <;>
          simp [h1, h2] at he <;> exact he
      · unfold on_cloud_command
        rw [hs, hd]
        simp

theorem filter_write_slots (p : Event → Bool) (hp : p .write_slot = true) (writes : List Event)
    (h : ∀ e ∈ writes, e = Event.write_slot) : writes.filter p = writes := by
  apply List.filter_eq_self.mpr
  intro e he
  rw [h e he]
  exact hp

theorem filter_write_slots_nil (p : Event → Bool) (hp : p .write_slot = false)
    (writes : List Event) (h : ∀ e ∈ writes, e = Event.write_slot) : writes.filter p = [] := by
  apply List.filter_eq_nil_iff.mpr
  intro e he
  rw [h e he, hp]
  simp

/-- C10. The v2 inbound handlers never publish: on every input the traces of
`on_sensor_data` and `on_cloud_command` hold no publish call. Apart from log
calls, a trace is either empty, with the mailbox unchanged, or it is one
critical section: lock, the accesses to the slot, the write of the flag, one
condition signal, unlock. -/
theorem handlers_never_publish (sdk : SdkMismatch) (obj : GgObject) (pst : ProcessorState)
    (payload : Bytes) (cst : ControllerState) :
    (on_sensor_data sdk obj pst).2.filter Event.isPublish = []
    ∧ (((on_sensor_data sdk obj pst).2.filter (fun e => !e.isLog) = []
          ∧ (on_sensor_data sdk obj pst).1 = pst)
        ∨ (on_sensor_data sdk obj pst).2.filter (fun e => !e.isLog)
            = [.mutex_lock, .write_slot, .write_slot, .write_flag, .cond_signal,
                .mutex_unlock])
    ∧ (on_cloud_command payload cst).2.filter Event.isPublish = []
    ∧ (((on_cloud_command payload cst).2.filter (fun e => !e.isLog) = []
          ∧ (on_cloud_command payload cst).1 = cst)
        ∨ ∃ writes, (∀ e ∈ writes, e = Event.write_slot)
            ∧ (on_cloud_command payload cst).2.filter (fun e => !e.isLog)
                = [.mutex_lock] ++ writes
                    ++ [.read_slot, .write_flag, .cond_signal, .mutex_unlock]) := by
  refine ⟨?_, ?_, ?_, ?_⟩
  · rcases on_sensor_data_trace sdk obj pst with h | ⟨_, h | h | h | h⟩ <;> rw [h] <;> rfl
  · rcases on_sensor_data_trace sdk obj pst with h | ⟨hst, h | h | h | h⟩
    · exact Or.inr (by rw [h]; rfl)
    · exact Or.inl ⟨by rw [h]; rfl, hst⟩
    · exact Or.inl ⟨by rw [h]; rfl, hst⟩
    · exact Or.inl ⟨by rw [h]; rfl, hst⟩
    · exact Or.inl ⟨by rw [h]; rfl, hst⟩
  · rcases on_cloud_command_trace payload cst with h | ⟨writes, hw, h⟩
    · rw [h]; rfl
    · rw [h, List.filter_append, List.filter_append,
        filter_write_slots_nil Event.isPublish rfl writes hw]
      rfl
  · rcases on_cloud_command_trace payload cst with h | ⟨writes, hw, h⟩
    · exact Or.inl ⟨by rw [h]; rfl, by rw [h]⟩
    · refine Or.inr ⟨writes, hw, ?_⟩
      rw [h, List.filter_append, List.filter_append,
        filter_write_slots (fun e => !e.isLog) rfl writes hw]
      rfl

/-! ## Claims on the two `main` functions -/

/-- C11. Start-up failures are fatal in `main` of `v2_processor.c` and of
`v2_controller.c`: when `ggipc_connect` returns anything but `GG_ERR_OK` the
process exits with status 1 and its trace holds neither the thread creation
nor a subscribe call; when the subscribe call returns anything but
`GG_ERR_OK` the process exits with status 1; and the heartbeat loop is reached
exactly when connect, thread creation and subscribe have all succeeded. -/
theorem startup_failures_fatal (connect_ret : GgError) (create_ret : Int)
    (subscribe_ret : GgError) :
    (connect_ret ≠ GG_ERR_OK →
      (∃ tr, v2_processor_main connect_ret create_ret subscribe_ret = .exited 1 tr
        ∧ MainEvent.pthread_create ∉ tr ∧ tr.filter MainEvent.isSubscribe = [])
      ∧ ∃ tr, v2_controller_main connect_ret create_ret subscribe_ret = .exited 1 tr
        ∧ MainEvent.pthread_create ∉ tr ∧ tr.filter MainEvent.isSubscribe = [])
    ∧ (subscribe_ret ≠ GG_ERR_OK →
      (∃ tr, v2_processor_main connect_ret create_ret subscribe_ret = .exited 1 tr)
      ∧ ∃ tr, v2_controller_main connect_ret create_ret subscribe_ret = .exited 1 tr)
    ∧ ((∃ tr, v2_processor_main connect_ret create_ret subscribe_ret = .heartbeat tr)
        ↔ connect_ret = GG_ERR_OK ∧ create_ret = 0 ∧ subscribe_ret = GG_ERR_OK)
    ∧ ((∃ tr, v2_controller_main connect_ret create_ret subscribe_ret = .heartbeat tr)
        ↔ connect_ret = GG_ERR_OK ∧ create_ret = 0 ∧ subscribe_ret = GG_ERR_OK) := by
  refine ⟨?_, ?_, ?_, ?_⟩
  · intro hc
    constructor
    · refine ⟨_, if_pos hc, ?_, rfl⟩
      decide
    · refine ⟨_, if_pos hc, ?_, rfl⟩
      decide
  · intro hs
    constructor
    · by_cases hc : connect_ret = GG_ERR_OK <;> by_cases hp : create_ret = 0 <;>
        simp [v2_processor_main, hc, hp, hs]
    · by_cases hc : connect_ret = GG_ERR_OK <;> by_cases hp : create_ret = 0 <;>
        simp [v2_controller_main, hc, hp, hs]
  · by_cases hc : connect_ret = GG_ERR_OK <;> by_cases hp : create_ret = 0 <;>
      by_cases hs : subscribe_ret = GG_ERR_OK <;> simp [v2_processor_main, hc, hp, hs]
  · by_cases hc : connect_ret = GG_ERR_OK <;> by_cases hp : create_ret = 0 <;>
      by_cases hs : subscribe_ret = GG_ERR_OK <;> simp [v2_controller_main, hc, hp, hs]

/-- Instance of C11: connect fails with code 1; connect succeeds and subscribe
fails with code 7. -/
theorem startup_failures_fatal_witness :
    (1 : GgError) ≠ GG_ERR_OK ∧ (7 : GgError) ≠ GG_ERR_OK
    ∧ (∃ tr, v2_processor_main 1 0 GG_ERR_OK = .exited 1 tr
        ∧ MainEvent.pthread_create ∉ tr ∧ tr.filter MainEvent.isSubscribe = [])
    ∧ (∃ tr, v2_controller_main 1 0 GG_ERR_OK = .exited 1 tr
        ∧ MainEvent.pthread_create ∉ tr ∧ tr.filter MainEvent.isSubscribe = [])
    ∧ (∃ tr, v2_processor_main GG_ERR_OK 0 7 = .exited 1 tr)
    ∧ (∃ tr, v2_controller_main GG_ERR_OK 0 7 = .exited 1 tr) :=
  ⟨by decide, by decide,
    ((startup_failures_fatal 1 0 GG_ERR_OK).1 (by decide)).1,
    ((startup_failures_fatal 1 0 GG_ERR_OK).1 (by decide)).2,
    ((startup_failures_fatal GG_ERR_OK 0 7).2.1 (by decide)).1,
    ((startup_failures_fatal GG_ERR_OK 0 7).2.1 (by decide)).2⟩

/-! ## Claims on the lock -/

theorem wait_loop_false_locked (w : Nat) :
    publishes_locked true (wait_loop false w).2 = false
    ∧ accesses_unlocked true (wait_loop false w).2 = false
    ∧ (wait_loop false w).2.filter Event.isPublish = [] := by
  induction w with
  | zero => simp [wait_loop, publishes_locked, accesses_unlocked, Event.isPublish, Event.holds]
  | succ k ih =>
    simp [wait_loop, publishes_locked, accesses_unlocked, Event.isPublish, Event.holds, ih.1,
      ih.2.1, ih.2.2]

theorem alert_publisher_thread_shape (ret : GgError) (w : Nat) (st : ProcessorState) :
    (alert_publisher_thread ret w st = .waiting (.mutex_lock :: (wait_loop false w).2))
    ∨ (alert_publisher_thread ret w st
        = .loop_top { st with has_pending_alert := false }
            ([.mutex_lock, .read_flag, .read_slot, .write_flag, .mutex_unlock]
              ++ [.publish_to_topic_json PUBLISH_TOPIC (alert_payload st.pending_alert),
                  .eprint "Failed to publish alert\n"]))
    ∨ (alert_publisher_thread ret w st
        = .loop_top { st with has_pending_alert := false }
            ([.mutex_lock, .read_flag, .read_slot, .write_flag, .mutex_unlock]
              ++ [.publish_to_topic_json PUBLISH_TOPIC (alert_payload st.pending_alert),
                  .print "Alert sent to AlertHandler component\n"])) := by
  cases hf : st.has_pending_alert with
  | false => exact Or.inl (alert_publisher_thread_empty ret w st hf)
  | true =>
    right
    by_cases hr : ret = GG_ERR_OK
    · right
      simp [alert_publisher_thread, alert_take_pending w st hf, hr]
    · left
      simp [alert_publisher_thread, alert_take_pending w st hf, hr]

theorem telemetry_publisher_thread_shape (ret : GgError) (now : Int) (w : Nat)
    (st : ControllerState) :
    (telemetry_publisher_thread ret now w st = .waiting (.mutex_lock :: (wait_loop false w).2))
    ∨ (telemetry_publisher_thread ret now w st
        = .loop_top { st with has_pending_command := false }
            ([.mutex_lock, .read_flag, .read_slot, .write_flag, .mutex_unlock]
              ++ [.publish_to_iot_core TELEMETRY_TOPIC (telemetry_json st.pending_command now) 0,
                  .eprint "Failed to publish telemetry to IoT Core\n"]))
    ∨ (telemetry_publisher_thread ret now w st
        = .loop_top { st with has_pending_command := false }
            ([.mutex_lock, .read_flag, .read_slot, .write_flag, .mutex_unlock]
              ++ [.publish_to_iot_core TELEMETRY_TOPIC (telemetry_json st.pending_command now) 0,
                  .print "Telemetry sent to cloud: device_id=%s, status=%s\n"]))
    ∨ (telemetry_publisher_thread ret now w st
        = .loop_top { st with has_pending_command := false }
            ([.mutex_lock, .read_flag, .read_slot, .write_flag, .mutex_unlock] ++ [])) := by
  cases hf : st.has_pending_command with
  | false => exact Or.inl (telemetry_publisher_thread_empty ret now w st hf)
  | true =>
    right
    by_cases hc : strcmp_eq st.pending_command.command (ascii "get_status") = true
    · by_cases hr : ret = GG_ERR_OK
      · right; left
        simp [telemetry_publisher_thread, command_take_pending w st hf, hc, hr]
      · left
        simp [telemetry_publisher_thread, command_take_pending w st hf, hc, hr]
    · right; right
      simp [telemetry_publisher_thread, command_take_pending w st hf, hc]

theorem accesses_unlocked_writes (writes rest : List Event)
    (h : ∀ e ∈ writes, e = Event.write_slot) :
    accesses_unlocked true (writes ++ rest) = accesses_unlocked true rest := by
  induction writes with
  | nil => rfl
  | cons a t ih =>
    have ha : a = Event.write_slot := h a (List.mem_cons_self a t)
    have ht : ∀ e ∈ t, e = Event.write_slot := fun e he => h e (List.mem_cons_of_mem a he)
    subst ha
    simp [accesses_unlocked, Event.holds, ih ht]

theorem held_at_end_writes (writes rest : List Event)
    (h : ∀ e ∈ writes, e = Event.write_slot) :
    held_at_end true (writes ++ rest) = held_at_end true rest := by
  induction writes with
  | nil => rfl
  | cons a t ih =>
    have ha : a = Event.write_slot := h a (List.mem_cons_self a t)
    have ht : ∀ e ∈ t, e = Event.write_slot := fun e he => h e (List.mem_cons_of_mem a he)
    subst ha
    have := ih ht
    simp only [held_at_end] at this ⊢
    simpa [Event.holds] using this

/-! ## Bounded slot strings -/

theorem cstr_length_le (t r : Bytes) : (cstr (t ++ 0 :: r)).length ≤ t.length := by
  induction t with
  | nil => simp [cstr]
  | cons a t ih =>
    simp only [cstr] at ih ⊢
    simp only [List.cons_append, List.takeWhile_cons]
    split
    · simp only [List.length_cons]
      omega
    · simp

theorem bounded_string_write (field t : Bytes) (hf : field.length = 64) (ht : t.length ≤ 63) :
    bounded_string (t ++ 0 :: field.drop (t.length + 1)) := by
  constructor
  · simp only [List.length_append, List.length_cons, List.length_drop, hf]
    omega
  · exact le_trans (cstr_length_le t _) ht

theorem bounded_string_snprintf (field out : Bytes) (hf : field.length = 64) :
    bounded_string (snprintf field 64 out) := by
  have h := bounded_string_write field (out.take 63) hf (by simp)
  simpa [snprintf, write_bytes] using h

theorem bounded_string_strcpy (field : Bytes) (hf : field.length = 64) :
    bounded_string (strcpy field (ascii "device1")) := by
  have hlit : ascii "device1" = [100, 101, 118, 105, 99, 101, 49] := rfl
  have h := bounded_string_write field (ascii "device1") hf (by rw [hlit]; decide)
  simpa [strcpy, write_bytes, hlit] using h

theorem bounded_string_copy (field src : Bytes) (n : Nat) (hf : field.length = 64)
    (hn : n < 64) : bounded_string ((strncpy field src n).set n 0) := by
  have hlen : (src.take n ++ List.replicate (n - (src.take n).length) 0).length = n := by
    simp only [List.length_append, List.length_replicate, List.length_take]
    omega
  obtain ⟨x, tl, hd⟩ : ∃ x tl, field.drop n = x :: tl := by
    cases hd : field.drop n with
    | nil =>
      have := congrArg List.length hd
      simp at this
      omega
    | cons x tl => exact ⟨x, tl, rfl⟩
  have htl : tl = field.drop (n + 1) := by
    have := congrArg List.tail hd
    simpa [List.tail_drop] using this.symm
  have h := bounded_string_write field
    (src.take n ++ List.replicate (n - (src.take n).length) 0) hf (by omega)
  simp only [strncpy, write_bytes, hlen, hd]
  rw [List.set_append_right _ _ (by omega)]
  simp only [hlen, Nat.sub_self, List.set_cons_zero, htl]
  rw [hlen] at h
  exact h

theorem bounded_string_field_after (start field : Bytes) (h : bounded_string field) :
    bounded_string (field_after start field) := by
  unfold field_after extract_value
  split
  · exact h
  · split
    · exact h
    · split
      · exact h
      · split
        · exact bounded_string_copy field _ _ h.1 (by assumption)
        · exact h

theorem on_cloud_command_bounded (payload : Bytes) (st : ControllerState)
    (h : controller_bounded st) : controller_bounded (on_cloud_command payload st).1 := by
  unfold on_cloud_command
  split
  · exact h
  · split
    · exact ⟨bounded_string_field_after _ _ h.1, bounded_string_field_after _ _ h.2⟩
    · exact ⟨bounded_string_field_after _ _ h.1, bounded_string_strcpy _ h.2.1⟩

theorem on_sensor_data_bounded (sdk : SdkMismatch) (obj : GgObject) (st : ProcessorState)
    (h : processor_bounded st) : processor_bounded (on_sensor_data sdk obj st).1 := by
  unfold on_sensor_data
  split
  · exact h
  · split
    · exact h
    · split
      · exact h
      · split
        · exact bounded_string_snprintf _ _ h.1
        · exact h

theorem run_command_handlers_bounded (ps : List Bytes) (st : ControllerState)
    (h : controller_bounded st) : controller_bounded (run_command_handlers ps st) := by
  induction ps generalizing st with
  | nil => exact h
  | cons p rest ih => exact ih _ (on_cloud_command_bounded p st h)

theorem run_sensor_handlers_bounded (sdk : SdkMismatch) (objs : List GgObject)
    (st : ProcessorState) (h : processor_bounded st) :
    processor_bounded (run_sensor_handlers sdk objs st) := by
  induction objs generalizing st with
  | nil => exact h
  | cons p rest ih => exact ih _ (on_sensor_data_bounded sdk p st h)

/-- C17. Bounded slot strings: starting from the zero-initialised mailbox and
after any sequence of handler invocations, with payloads of any content whose
lengths fit in an `int`, `pending_command.command` and
`pending_command.device_id` of `v2_controller.c` and `pending_alert.sensor_id`
of `v2_processor.c` are 64-byte arrays that hold a NUL-terminated string of at
most 63 bytes, and so is every field of the copy a worker takes. -/
theorem slot_strings_bounded (sdk : SdkMismatch) (ps : List Bytes) (objs : List GgObject)
    (_hps : ∀ p ∈ ps, p.length < 2 ^ 31) (_hobjs : ∀ o ∈ objs, sensor_len_fits sdk o) :
    controller_bounded (run_command_handlers ps ControllerState.init)
    ∧ processor_bounded (run_sensor_handlers sdk objs ProcessorState.init)
    ∧ (∀ w rec st1 tr,
        command_take w (run_command_handlers ps ControllerState.init) = .taken rec st1 tr →
        bounded_string rec.command ∧ bounded_string rec.device_id)
    ∧ (∀ w rec st1 tr,
        alert_take w (run_sensor_handlers sdk objs ProcessorState.init) = .taken rec st1 tr →
        bounded_string rec.sensor_id) := by
  have hc : controller_bounded (run_command_handlers ps ControllerState.init) :=
    run_command_handlers_bounded ps _ (by decide)
  have hp : processor_bounded (run_sensor_handlers sdk objs ProcessorState.init) :=
    run_sensor_handlers_bounded sdk objs _ (by decide)
  refine ⟨hc, hp, ?_, ?_⟩
  · intro w rec st1 tr h
    cases hf : (run_command_handlers ps ControllerState.init).has_pending_command with
    | false => rw [command_take_empty w _ hf] at h; cases h
    | true =>
      rw [command_take_pending w _ hf] at h
      cases h
      exact hc
  · intro w rec st1 tr h
    rw [(alert_take_taken_inv w _ st1 rec tr h).2.1]
    exact hp

/-- Instance of C17: a value of 70 bytes, a well-formed command and a payload
without a quoted value on the controller; an id of 70 bytes on the processor. -/
theorem slot_strings_bounded_witness :
    (∀ p ∈ [command_payload (List.replicate 70 97), command_payload (ascii "get_status"),
        ascii "\x7b\"command\": 5\x7d"], p.length < 2 ^ 31)
    ∧ (∀ o ∈ [GgObject.map (sensor_map (List.replicate 70 97) 90)], sensor_len_fits sdk_zero o)
    ∧ controller_bounded (run_command_handlers
        [command_payload (List.replicate 70 97), command_payload (ascii "get_status"),
          ascii "\x7b\"command\": 5\x7d"] ControllerState.init)
    ∧ processor_bounded (run_sensor_handlers sdk_zero
        [GgObject.map (sensor_map (List.replicate 70 97) 90)] ProcessorState.init)
    ∧ cstr (run_sensor_handlers sdk_zero
        [GgObject.map (sensor_map (List.replicate 70 97) 90)]
        ProcessorState.init).pending_alert.sensor_id = List.replicate 63 97 :=
  have hps : ∀ p ∈ [command_payload (List.replicate 70 97), command_payload (ascii "get_status"),
      ascii "\x7b\"command\": 5\x7d"], p.length < 2 ^ 31 := by decide
  have hobjs : ∀ o ∈ [GgObject.map (sensor_map (List.replicate 70 97) 90)],
      sensor_len_fits sdk_zero o := by
    intro o ho kvs sid hk hs
    simp only [List.mem_singleton] at ho
    subst ho
    cases hk
    cases hs
    decide
  ⟨hps, hobjs,
    (slot_strings_bounded sdk_zero _ _ hps hobjs).1,
    (slot_strings_bounded sdk_zero _ _ hps hobjs).2.1,
    by decide⟩

/-! ## Output of the telemetry worker -/

theorem fmt_ld_length (v : Int) (hlo : -(2 : Int) ^ 63 ≤ v) (hhi : v < (2 : Int) ^ 63) :
    (fmt_ld v).length ≤ 20 := by
  have hn : v.natAbs < 10 ^ 19 := by omega
  have hd : (Nat.toDigits 10 v.natAbs).length ≤ 19 :=
    Nat.toDigitsCore_length 10 (by decide) (v.natAbs + 1) v.natAbs 19 hn (by decide)
  unfold fmt_ld
  split
  · simp only [List.length_cons, List.length_map]
    omega
  · simp only [List.length_map]
    omega

theorem telemetry_json_text (cmd : CommandData) (now : Int)
    (hd : (cstr cmd.device_id).length ≤ 63)
    (hlo : -(2 : Int) ^ 63 ≤ now) (hhi : now < (2 : Int) ^ 63) :
    telemetry_json cmd now
      = ascii "\x7b\"device_id\":\"" ++ cstr cmd.device_id
          ++ ascii "\",\"status\":\"online\",\"timestamp\":" ++ fmt_ld now ++ ascii "\x7d" := by
  have h1 : ascii "\x7b\"device_id\":\""
      = [123, 34, 100, 101, 118, 105, 99, 101, 95, 105, 100, 34, 58, 34] := rfl
  have h2 : ascii "\",\"status\":\"" ++ get_device_status ++ ascii "\",\"timestamp\":"
      = ascii "\",\"status\":\"online\",\"timestamp\":" := rfl
  have h3 : (ascii "\",\"status\":\"online\",\"timestamp\":").length = 32 := rfl
  have h4 : (ascii "\x7d").length = 1 := rfl
  have hl := fmt_ld_length now hlo hhi
  have hassoc : ascii "\x7b\"device_id\":\"" ++ cstr cmd.device_id ++ ascii "\",\"status\":\""
        ++ get_device_status ++ ascii "\",\"timestamp\":" ++ fmt_ld now ++ ascii "\x7d"
      = ascii "\x7b\"device_id\":\"" ++ cstr cmd.device_id
          ++ (ascii "\",\"status\":\"" ++ get_device_status ++ ascii "\",\"timestamp\":")
          ++ fmt_ld now ++ ascii "\x7d" := by
    simp only [List.append_assoc]
  unfold telemetry_json
  rw [hassoc, h2]
  apply List.take_of_length_le
  simp only [List.length_append, h3, h4, h1, List.length_cons, List.length_nil]
  omega

/-- C16. Output of `telemetry_publisher_thread`: for every taken record whose
command is `get_status`, with device id `d` (a string of at most 63 bytes) and
the time `T` (a `long` of 64 bits), the iteration makes exactly one publish
call, to the topic `telemetry/device1` whatever `d` is, with the text
`{"device_id":"d","status":"online","timestamp":T}`; for every taken record
with another command it makes no publish call, the flag is cleared and the
worker then waits. -/
theorem telemetry_output (st : ControllerState) (ret : GgError) (now : Int) (w : Nat)
    (hflag : st.has_pending_command = true)
    (hd : (cstr st.pending_command.device_id).length ≤ 63)
    (hlo : -(2 : Int) ^ 63 ≤ now) (hhi : now < (2 : Int) ^ 63) :
    (cstr st.pending_command.command = ascii "get_status" →
      ∃ tr, telemetry_publisher_thread ret now w st
          = .loop_top { st with has_pending_command := false } tr
        ∧ tr.filter Event.isPublish
            = [.publish_to_iot_core (ascii "telemetry/device1")
                (ascii "\x7b\"device_id\":\"" ++ cstr st.pending_command.device_id
                  ++ ascii "\",\"status\":\"online\",\"timestamp\":" ++ fmt_ld now
                  ++ ascii "\x7d") 0])
    ∧ (cstr st.pending_command.command ≠ ascii "get_status" →
      ∃ tr, telemetry_publisher_thread ret now w st
          = .loop_top { st with has_pending_command := false } tr
        ∧ tr.filter Event.isPublish = []
        ∧ ∀ ret1 now1 w1, ∃ tr1,
            telemetry_publisher_thread ret1 now1 w1 { st with has_pending_command := false }
              = .waiting tr1) := by
  obtain ⟨tr, h1, h2⟩ := telemetry_publisher_thread_pending ret now w st hflag
  constructor
  · intro hc
    have hs : strcmp_eq st.pending_command.command (ascii "get_status") = true := by
      simp [strcmp_eq, hc]
    refine ⟨tr, h1, ?_⟩
    rw [h2, if_pos hs, telemetry_json_text _ now hd hlo hhi]
    rfl
  · intro hc
    have hs : strcmp_eq st.pending_command.command (ascii "get_status") = false := by
      simp [strcmp_eq, hc]
    refine ⟨tr, h1, ?_, ?_⟩
    · rw [h2]
      simp [hs]
    · intro ret1 now1 w1
      exact ⟨_, telemetry_publisher_thread_empty ret1 now1 w1 _ rfl⟩

/-- Instance of C16: the pending `get_status` of device `device1` at time
1700000000, with a publish that succeeds. -/
theorem telemetry_output_witness :
    controller_pending.has_pending_command = true
    ∧ (cstr controller_pending.pending_command.device_id).length ≤ 63
    ∧ -(2 : Int) ^ 63 ≤ 1700000000 ∧ (1700000000 : Int) < (2 : Int) ^ 63
    ∧ cstr controller_pending.pending_command.command = ascii "get_status"
    ∧ (∃ tr, telemetry_publisher_thread GG_ERR_OK 1700000000 0 controller_pending
          = .loop_top { controller_pending with has_pending_command := false } tr
        ∧ tr.filter Event.isPublish
            = [.publish_to_iot_core (ascii "telemetry/device1")
                (ascii "\x7b\"device_id\":\"" ++ cstr controller_pending.pending_command.device_id
                  ++ ascii "\",\"status\":\"online\",\"timestamp\":" ++ fmt_ld 1700000000
                  ++ ascii "\x7d") 0])
    ∧ ascii "\x7b\"device_id\":\"" ++ cstr controller_pending.pending_command.device_id
        ++ ascii "\",\"status\":\"online\",\"timestamp\":" ++ fmt_ld 1700000000 ++ ascii "\x7d"
      = ascii "\x7b\"device_id\":\"device1\",\"status\":\"online\",\"timestamp\":1700000000\x7d" :=
  ⟨rfl, by decide, by decide, by decide, by decide,
    (telemetry_output controller_pending GG_ERR_OK 1700000000 0 rfl (by decide) (by decide)
      (by decide)).1 (by decide),
    by decide⟩

/-! ## Decoding of the device id -/

/-- C12. Evaluation of `on_cloud_command` on the well-formed payload
`{"command":"device_id"}`, which has no `device_id` field: the search for
`"device_id"` matches the command value, no colon follows it, the store of
`pending_command.device_id` is skipped and the default is not used. From the
zeroed mailbox the device id stays empty, from the mailbox left by
`{"command":"get_status","device_id":"d9"}` it stays `d9`, while the payload
`{"command":"reboot"}` stores the default `device1`. -/
theorem default_device_id_missed :
    (on_cloud_command (ascii "\x7b\"command\":\"device_id\"\x7d")
        ControllerState.init).1.has_pending_command = true
    ∧ cstr (on_cloud_command (ascii "\x7b\"command\":\"device_id\"\x7d")
        ControllerState.init).1.pending_command.command = ascii "device_id"
    ∧ cstr (on_cloud_command (ascii "\x7b\"command\":\"device_id\"\x7d")
        ControllerState.init).1.pending_command.device_id = []
    ∧ cstr (on_cloud_command (ascii "\x7b\"command\":\"device_id\"\x7d")
        (on_cloud_command (ascii "\x7b\"command\":\"get_status\",\"device_id\":\"d9\"\x7d")
          ControllerState.init).1).1.pending_command.device_id = ascii "d9"
    ∧ cstr (on_cloud_command (ascii "\x7b\"command\":\"reboot\"\x7d")
        (on_cloud_command (ascii "\x7b\"command\":\"get_status\",\"device_id\":\"d9\"\x7d")
          ControllerState.init).1).1.pending_command.device_id = ascii "device1"
    ∧ ascii "device1" ≠ [] ∧ ascii "device1" ≠ ascii "d9" := by
  decide

/-! ## Claims on v1_processor_lambda.c -/

theorem int_of_long_long_small (t : Int) (hlo : -(2 : Int) ^ 31 ≤ t) (hhi : t < (2 : Int) ^ 31) :
    int_of_long_long t = t := by
  unfold int_of_long_long
  have h : (t + 2 ^ 31) % 2 ^ 32 = t + 2 ^ 31 := Int.emod_eq_of_lt (by omega) (by omega)
  omega

/-- C18, the claim as stated fails: temperatures within 64 bits but outside
32 bits are compared after the conversion to `int`. For `t = 2^32` (above 80)
nothing is published; for `t = 2^32 + 100` the published alert carries 100;
for `t = 100 - 2^32` (below 80) an alert is published. -/
theorem threshold_wraps_beyond_32_bits :
    (on_message_received (some (v1_event (ascii "s1") 4294967296))).filter V1Event.isPublish = []
    ∧ (4294967296 : Int) > 80
    ∧ (on_message_received (some (v1_event (ascii "s1") 4294967396))).filter V1Event.isPublish
        = [.publish (ascii "lambda/alerts")
            [(ascii "sensor_id", .string (ascii "s1")), (ascii "temperature", .integer 100),
             (ascii "alert", .string (ascii "HIGH_TEMPERATURE"))]]
    ∧ (100 : Int) ≠ 4294967396
    ∧ (on_message_received (some (v1_event (ascii "s1") (-4294967196)))).filter
          V1Event.isPublish
        = [.publish (ascii "lambda/alerts")
            [(ascii "sensor_id", .string (ascii "s1")), (ascii "temperature", .integer 100),
             (ascii "alert", .string (ascii "HIGH_TEMPERATURE"))]]
    ∧ ¬ ((-4294967196 : Int) > 80) :=
  ⟨rfl, by decide, rfl, by decide, rfl, by decide⟩

/-- C18, amended. For every JSON object payload whose `temperature` member is
an integer `t` in the range of a 32-bit `int`, `on_message_received`
publishes an alert, to `lambda/alerts`, if and only if `t > 80`, it publishes
at most one, and the temperature carried in the published alert equals `t`. -/
theorem threshold_v1 (kvs : List (Bytes × Json)) (t : Int)
    (ht : json_members_get kvs (ascii "temperature") = some (.integer t))
    (hlo : -(2 : Int) ^ 31 ≤ t) (hhi : t < (2 : Int) ^ 31) :
    (t > 80 →
      (on_message_received (some (.object kvs))).filter V1Event.isPublish
        = [.publish (ascii "lambda/alerts")
            (v1_alert_data (json_string_value (json_members_get kvs (ascii "sensor_id"))) t)]
      ∧ json_members_get
          (v1_alert_data (json_string_value (json_members_get kvs (ascii "sensor_id"))) t)
          (ascii "temperature") = some (.integer t))
    ∧ (¬ t > 80 → (on_message_received (some (.object kvs))).filter V1Event.isPublish = []) := by
  have hv : int_of_long_long (json_integer_value (json_object_get (.object kvs)
      (ascii "temperature"))) = t := by
    simp only [json_object_get, ht, json_integer_value]
    exact int_of_long_long_small t hlo hhi
  constructor
  · intro hgt
    constructor
    · simp only [on_message_received, hv, hgt, if_true]
      rfl
    · cases json_string_value (json_members_get kvs (ascii "sensor_id")) <;> rfl
  · intro hle
    simp only [on_message_received, hv, hle, if_false]
    rfl

/-- Instance of C18 amended: sensor `s1` at 85 degrees. -/
theorem threshold_v1_witness :
    json_members_get [(ascii "sensor_id", Json.string (ascii "s1")),
        (ascii "temperature", Json.integer 85)] (ascii "temperature") = some (.integer 85)
    ∧ -(2 : Int) ^ 31 ≤ 85 ∧ (85 : Int) < (2 : Int) ^ 31 ∧ (85 : Int) > 80
    ∧ (on_message_received (some (.object [(ascii "sensor_id", Json.string (ascii "s1")),
        (ascii "temperature", Json.integer 85)]))).filter V1Event.isPublish
        = [.publish (ascii "lambda/alerts")
            (v1_alert_data (json_string_value (json_members_get
              [(ascii "sensor_id", Json.string (ascii "s1")),
                (ascii "temperature", Json.integer 85)] (ascii "sensor_id"))) 85)] :=
  ⟨rfl, by decide, by decide, by decide,
    ((threshold_v1 [(ascii "sensor_id", Json.string (ascii "s1")),
        (ascii "temperature", Json.integer 85)] 85 rfl (by decide) (by decide)).1
      (by decide)).1⟩

/-! ## Decimal text and `std::stoll` -/

theorem digitChar_toNat : ∀ m, m < 10 → (Nat.digitChar m).toNat = 48 + m := by
  decide

theorem digits_value_append (a : Bytes) (d : Nat) :
    digits_value (a ++ [d]) = 10 * digits_value a + (d - 48) := by
  simp [digits_value, List.foldl_append]

theorem toDigitsCore_decimal (f : Nat) : ∀ (n : Nat) (acc : List Char), n < f →
    ∃ pre, Nat.toDigitsCore 10 f n acc = pre ++ acc ∧ pre ≠ []
      ∧ (∀ c ∈ pre, isdigit c.toNat = true)
      ∧ digits_value (pre.map Char.toNat) = n := by
  induction f with
  | zero => intro n acc h; omega
  | succ k ih =>
    intro n acc h
    have hmod : n % 10 < 10 := Nat.mod_lt n (by decide)
    have hd : (Nat.digitChar (n % 10)).toNat = 48 + n % 10 := digitChar_toNat _ hmod
    have hdig : isdigit (Nat.digitChar (n % 10)).toNat = true := by
      rw [hd]
      simp only [isdigit, Bool.and_eq_true, decide_eq_true_eq]
      omega
    by_cases h0 : n / 10 = 0
    · refine ⟨[Nat.digitChar (n % 10)], ?_, by simp, ?_, ?_⟩
      · simp [Nat.toDigitsCore, h0]
      · intro c hc
        simp only [List.mem_singleton] at hc
        rw [hc]
        exact hdig
      · simp only [List.map_cons, List.map_nil, digits_value, List.foldl_cons, List.foldl_nil, hd]
        omega
    · have hlt : n / 10 < k := by omega
      obtain ⟨pre, h1, _, h3, h4⟩ := ih (n / 10) (Nat.digitChar (n % 10) :: acc) hlt
      refine ⟨pre ++ [Nat.digitChar (n % 10)], ?_, by simp, ?_, ?_⟩
      · simp only [Nat.toDigitsCore, h0, if_false, h1, List.append_assoc, List.singleton_append]
      · intro c hc
        simp only [List.mem_append, List.mem_singleton] at hc
        rcases hc with hc | hc
        · exact h3 c hc
        · rw [hc]
          exact hdig
      · rw [List.map_append, List.map_cons, List.map_nil, digits_value_append, h4, hd]
        omega

theorem toDigits_decimal (n : Nat) :
    (Nat.toDigits 10 n).map Char.toNat ≠ []
    ∧ (∀ b ∈ (Nat.toDigits 10 n).map Char.toNat, isdigit b = true)
    ∧ digits_value ((Nat.toDigits 10 n).map Char.toNat) = n := by
  obtain ⟨pre, h1, h2, h3, h4⟩ := toDigitsCore_decimal (n + 1) n [] (by omega)
  have hp : Nat.toDigits 10 n = pre := by
    simp only [Nat.toDigits, h1, List.append_nil]
  rw [hp]
  refine ⟨by simpa using h2, ?_, h4⟩
  intro b hb
  simp only [List.mem_map] at hb
  obtain ⟨c, hc, rfl⟩ := hb
  exact h3 c hc

theorem takeWhile_all (p : Nat → Bool) (l : Bytes) (h : ∀ b ∈ l, p b = true) :
    l.takeWhile p = l := by
  induction l with
  | nil => rfl
  | cons a t ih =>
    have ha : p a = true := h a (List.mem_cons_self a t)
    have ht : ∀ b ∈ t, p b = true := fun b hb => h b (List.mem_cons_of_mem a hb)
    simp only [List.takeWhile_cons, ha, if_true, ih ht]

theorem stoll_fmt_ld (t : Int) (hlo : -(2 : Int) ^ 63 ≤ t) (hhi : t < (2 : Int) ^ 63) :
    stoll (fmt_ld t) = .ok t := by
  obtain ⟨hne, hdig, hval⟩ := toDigits_decimal t.natAbs
  obtain ⟨d0, ds, hds⟩ : ∃ d0 ds, (Nat.toDigits 10 t.natAbs).map Char.toNat = d0 :: ds := by
    cases h : (Nat.toDigits 10 t.natAbs).map Char.toNat with
    | nil => exact absurd h hne
    | cons d0 ds => exact ⟨d0, ds, rfl⟩
  have hd0 : isdigit d0 = true := hdig d0 (by rw [hds]; exact List.mem_cons_self _ _)
  have hd0r : 48 ≤ d0 ∧ d0 ≤ 57 := by
    simpa [isdigit] using hd0
  have hsp0 : isspace d0 = false := by
    simp only [isspace, Bool.or_eq_false_iff, beq_eq_false_iff_ne, Bool.and_eq_false_iff,
      decide_eq_false_iff_not]
    omega
  have htw : (d0 :: ds).takeWhile isdigit = d0 :: ds := by
    apply takeWhile_all
    rw [← hds]
    exact hdig
  have hv : digits_value (d0 :: ds) = t.natAbs := by rw [← hds]; exact hval
  unfold fmt_ld
  by_cases hneg : t < 0
  · have hbody : split_sign (45 :: d0 :: ds) = (true, d0 :: ds) := rfl
    have hsp : (45 :: d0 :: ds).dropWhile isspace = 45 :: d0 :: ds := by
      simp [List.dropWhile, isspace]
    simp only [hneg, if_true, hds, stoll, hsp, hbody, htw, hv]
    have hcast : -((t.natAbs : Nat) : Int) = t := by omega
    simp only [List.isEmpty_cons, Bool.false_eq_true, if_false, if_true, hcast]
    rw [if_neg (by omega)]
  · have hbody : split_sign (d0 :: ds) = (false, d0 :: ds) := by
      unfold split_sign
      split
      · rename_i h; simp only [List.cons.injEq] at h; omega
      · rename_i h; simp only [List.cons.injEq] at h; omega
      · rfl
    have hsp : (d0 :: ds).dropWhile isspace = d0 :: ds := by
      simp [List.dropWhile, hsp0]
    simp only [hneg, if_false, hds, stoll, hsp, hbody, htw, hv]
    have hcast : ((t.natAbs : Nat) : Int) = t := by omega
    simp only [List.isEmpty_cons, Bool.false_eq_true, if_false, hcast]
    rw [if_neg (by omega)]

/-! ## The text search of the C++ handler -/

theorem string_find_skip (l r ps : Bytes) (p0 : Nat) (h : ∀ b ∈ l, b ≠ p0) :
    string_find (l ++ r) (p0 :: ps) = (string_find r (p0 :: ps)).map (· + l.length) := by
  induction l with
  | nil => simp
  | cons a t ih =>
    have ha : a ≠ p0 := h a (List.mem_cons_self a t)
    have ht : ∀ b ∈ t, b ≠ p0 := fun b hb => h b (List.mem_cons_of_mem a hb)
    have hpre : (p0 :: ps).isPrefixOf (a :: (t ++ r)) = false := by
      simp [List.isPrefixOf, Ne.symm ha]
    show string_find (a :: (t ++ r)) (p0 :: ps) = _
    rw [string_find, hpre, if_neg (by simp), ih ht]
    cases string_find r (p0 :: ps) with
    | none => rfl
    | some i =>
      simp only [Option.map_some', List.length_cons, Option.some.injEq]
      omega

theorem isPrefixOf_quoted_false (key s rest : Bytes) (hk : ∀ b ∈ key, b ≠ 34)
    (hs : ∀ b ∈ s, b ≠ 34) :
    (key ++ [34, 58]).isPrefixOf (s ++ 34 :: 44 :: rest) = false := by
  induction key generalizing s with
  | nil =>
    cases s with
    | nil => simp [List.isPrefixOf]
    | cons a t =>
      have ha : a ≠ 34 := hs a (List.mem_cons_self a t)
      simp [List.isPrefixOf, Ne.symm ha]
  | cons x key ih =>
    have hx : x ≠ 34 := hk x (List.mem_cons_self x key)
    have hk2 : ∀ b ∈ key, b ≠ 34 := fun b hb => hk b (List.mem_cons_of_mem x hb)
    cases s with
    | nil => simp [List.isPrefixOf, hx]
    | cons a t =>
      have ht : ∀ b ∈ t, b ≠ 34 := fun b hb => hs b (List.mem_cons_of_mem a hb)
      simp [List.isPrefixOf, ih t hk2 ht]

theorem string_find_sensor_json (s : Bytes) (t : Int) (hs : ∀ b ∈ s, b ≠ 34) :
    string_find (sensor_json s t) (ascii "\"temperature\":") = some (s.length + 16) := by
  have hpre : ascii "\x7b\"sensor_id\":\""
      = [123, 34, 115, 101, 110, 115, 111, 114, 95, 105, 100, 34, 58, 34] := rfl
  have hmid : ascii "\",\"temperature\":"
      = [34, 44, 34, 116, 101, 109, 112, 101, 114, 97, 116, 117, 114, 101, 34, 58] := rfl
  have hpat : ascii "\"temperature\":"
      = 34 :: ([116, 101, 109, 112, 101, 114, 97, 116, 117, 114, 101] ++ [34, 58]) := rfl
  have hq : (34 :: ([116, 101, 109, 112, 101, 114, 97, 116, 117, 114, 101] ++ [34, 58])).isPrefixOf
      (34 :: (s ++ 34 :: 44 :: ([34, 116, 101, 109, 112, 101, 114, 97, 116, 117, 114, 101, 34, 58]
        ++ (fmt_ld t ++ ascii "\x7d")))) = false := by
    rw [List.isPrefixOf]
    simp only [beq_self_eq_true, Bool.true_and]
    exact isPrefixOf_quoted_false _ s _ (by decide) hs
  have htail : string_find (34 :: 44 :: ([34, 116, 101, 109, 112, 101, 114, 97, 116, 117, 114,
        101, 34, 58] ++ (fmt_ld t ++ ascii "\x7d")))
      (34 :: ([116, 101, 109, 112, 101, 114, 97, 116, 117, 114, 101] ++ [34, 58])) = some 2 := by
    simp [string_find, List.isPrefixOf]
  have hfrom : string_find (34 :: (s ++ 34 :: 44 :: ([34, 116, 101, 109, 112, 101, 114, 97, 116,
        117, 114, 101, 34, 58] ++ (fmt_ld t ++ ascii "\x7d"))))
      (34 :: ([116, 101, 109, 112, 101, 114, 97, 116, 117, 114, 101] ++ [34, 58]))
      = some (s.length + 3) := by
    rw [string_find, hq]
    simp only [Bool.false_eq_true, if_false]
    rw [string_find_skip s _ _ 34 hs, htail]
    simp only [Option.map_some', Option.some.injEq]
    omega
  have htext : sensor_json s t
      = [123, 34, 115, 101, 110, 115, 111, 114, 95, 105, 100, 34, 58]
          ++ (34 :: (s ++ 34 :: 44 :: ([34, 116, 101, 109, 112, 101, 114, 97, 116, 117, 114, 101,
              34, 58] ++ (fmt_ld t ++ ascii "\x7d")))) := by
    simp [sensor_json, hpre, hmid]
  rw [htext, hpat]
  have hstep : ∀ X : Bytes,
      string_find ([123, 34, 115, 101, 110, 115, 111, 114, 95, 105, 100, 34, 58] ++ X)
        (34 :: ([116, 101, 109, 112, 101, 114, 97, 116, 117, 114, 101] ++ [34, 58]))
      = (string_find X
          (34 :: ([116, 101, 109, 112, 101, 114, 97, 116, 117, 114, 101] ++ [34, 58]))).map
          (· + 13) := by
    intro X
    simp only [List.cons_append, List.nil_append, string_find, List.isPrefixOf]
    simp [Option.map_map, Function.comp_def]
  rw [hstep, hfrom]
  simp

theorem fmt_ld_chars (t : Int) : ∀ b ∈ fmt_ld t, b = 45 ∨ isdigit b = true := by
  intro b hb
  unfold fmt_ld at hb
  split at hb
  · simp only [List.mem_cons] at hb
    rcases hb with hb | hb
    · exact Or.inl hb
    · exact Or.inr ((toDigits_decimal t.natAbs).2.1 b hb)
  · exact Or.inr ((toDigits_decimal t.natAbs).2.1 b hb)

theorem findIdx_skip (p : Nat → Bool) (l r : Bytes) (x : Nat) (hl : ∀ b ∈ l, p b = false)
    (hx : p x = true) : ∀ i, List.findIdx? p (l ++ x :: r) i = some (i + l.length) := by
  induction l with
  | nil =>
    intro i
    simp [List.findIdx?_cons, hx]
  | cons a t ih =>
    intro i
    have ha : p a = false := hl a (List.mem_cons_self a t)
    have ht : ∀ b ∈ t, p b = false := fun b hb => hl b (List.mem_cons_of_mem a hb)
    simp only [List.cons_append, List.findIdx?_cons, ha, Bool.false_eq_true, if_false, ih ht,
      List.length_cons, Option.some.injEq]
    omega

theorem parse_temperature_sensor_json (s : Bytes) (t : Int) (hs : ∀ b ∈ s, b ≠ 34)
    (hlo : -(2 : Int) ^ 63 ≤ t) (hhi : t < (2 : Int) ^ 63) :
    parse_temperature (sensor_json s t) = .ok t := by
  have hpre : (ascii "\x7b\"sensor_id\":\"").length = 14 := rfl
  have hmid : (ascii "\",\"temperature\":").length = 16 := rfl
  have hset : ascii ",\x7d" = [44, 125] := rfl
  have hclose : ascii "\x7d" = [125] := rfl
  have hsplit : sensor_json s t
      = (ascii "\x7b\"sensor_id\":\"" ++ s ++ ascii "\",\"temperature\":")
          ++ (fmt_ld t ++ 125 :: []) := by
    simp [sensor_json, hclose]
  have hdrop : (sensor_json s t).drop (s.length + 16 + 14) = fmt_ld t ++ 125 :: [] := by
    rw [hsplit]
    apply List.drop_left'
    simp only [List.length_append, hpre, hmid]
    omega
  have hnot : ∀ b ∈ fmt_ld t, (fun b => [44, 125].contains b) b = false := by
    intro b hb
    have hne : b ≠ 44 ∧ b ≠ 125 := by
      rcases fmt_ld_chars t b hb with h | h
      · omega
      · have : 48 ≤ b ∧ b ≤ 57 := by simpa [isdigit] using h
        omega
    simp [hne.1, hne.2]
  have hidx : find_first_of (sensor_json s t) (ascii ",\x7d") (s.length + 16 + 14)
      = some ((fmt_ld t).length + (s.length + 16 + 14)) := by
    unfold find_first_of
    rw [hdrop, hset]
    have := findIdx_skip (fun b => [44, 125].contains b) (fmt_ld t) [] 125 hnot (by decide) 0
    simp only [Nat.zero_add] at this
    rw [this]
    rfl
  have hsub : substr (sensor_json s t) (s.length + 16 + 14)
      ((fmt_ld t).length + (s.length + 16 + 14) - (s.length + 16 + 14)) = fmt_ld t := by
    unfold substr
    rw [hdrop, Nat.add_sub_cancel]
    exact List.take_left' rfl
  unfold parse_temperature
  rw [string_find_sensor_json s t hs]
  simp only [hidx, hsub]
  exact stoll_fmt_ld t hlo hhi

/-! ## The C and the C++ processor -/

/-- C15, the claim as stated fails: for sensor `s1` at 85 degrees both handlers
put, the C handler stores the id `s1`, the C++ handler stores the id
`sensor1`. -/
theorem cpp_stores_fixed_sensor_id :
    (on_sensor_data sdk_zero (.map (sensor_map (ascii "s1") 85))
        ProcessorState.init).1.has_pending_alert = true
    ∧ cstr (on_sensor_data sdk_zero (.map (sensor_map (ascii "s1") 85))
        ProcessorState.init).1.pending_alert.sensor_id = ascii "s1"
    ∧ (∃ tr, SensorCallback (.buf (sensor_json (ascii "s1") 85)) CppProcessorState.init
        = .ok ({ pending_alert := { sensor_id := ascii "sensor1", temperature := 85 },
                 has_pending_alert := true }, tr))
    ∧ sensor_json (ascii "s1") 85 = ascii "\x7b\"sensor_id\":\"s1\",\"temperature\":85\x7d"
    ∧ ascii "sensor1" ≠ ascii "s1" :=
  ⟨by decide, by decide, ⟨_, rfl⟩, by decide, by decide⟩

/-- C15, amended. The C and the C++ v2 processor agree on the decision and on
the temperature: for every sensor id `s` (no double quote, backslash or NUL
byte, at most 63 bytes) and every 64-bit temperature `t`, `on_sensor_data` on
the map `{sensor_id: s, temperature: t}` and `SensorCallback` on the compact
text `{"sensor_id":"s","temperature":t}` both put exactly when `t > 80`, and
then store the same temperature `t`; the C handler stores the id `s`, the C++
handler, which does not read the `sensor_id` field, stores `sensor1`. -/
theorem processors_agree_on_temperature (sdk : SdkMismatch) (s : Bytes) (t : Int)
    (st : ProcessorState) (cst : CppProcessorState)
    (hq : ∀ b ∈ s, b ≠ 34) (_hb : ∀ b ∈ s, b ≠ 92) (h0 : ∀ b ∈ s, b ≠ 0)
    (hlen : s.length ≤ 63) (hlo : -(2 : Int) ^ 63 ≤ t) (hhi : t < (2 : Int) ^ 63) :
    ∃ cst1 tr, SensorCallback (.buf (sensor_json s t)) cst = .ok (cst1, tr)
      ∧ (t > 80 →
          (on_sensor_data sdk (.map (sensor_map s t)) st).1.has_pending_alert = true
          ∧ (on_sensor_data sdk (.map (sensor_map s t)) st).1.pending_alert.temperature = t
          ∧ cstr (on_sensor_data sdk (.map (sensor_map s t)) st).1.pending_alert.sensor_id = s
          ∧ cst1 = { pending_alert := { sensor_id := ascii "sensor1", temperature := t },
                     has_pending_alert := true })
      ∧ (¬ t > 80 →
          (on_sensor_data sdk (.map (sensor_map s t)) st).1 = st ∧ cst1 = cst) := by
  have hparse := parse_temperature_sensor_json s t hq hlo hhi
  by_cases hgt : t > 80
  · refine ⟨{ pending_alert := { sensor_id := ascii "sensor1", temperature := t },
              has_pending_alert := true },
      [.print "Received from sensor ", .mutex_lock, .write_slot, .write_flag, .cond_signal,
        .mutex_unlock], ?_, ?_, ?_⟩
    · simp only [SensorCallback, gg_obj_type, ne_eq, not_true_eq_false, if_false, hparse, hgt,
        if_true]
    · intro _
      have hgt1 : gg_obj_into_i64 sdk (.i64 t) > 80 := hgt
      rw [on_sensor_data_put sdk (sensor_map s t) (.buf s) (.i64 t) st rfl rfl hgt1]
      refine ⟨rfl, rfl, ?_, rfl⟩
      show cstr (snprintf st.pending_alert.sensor_id 64
        (fmt_prec_s (int_of_size_t s.length) s)) = s
      rw [cstr_snprintf _ _ 64 (by decide) (fmt_prec_s_no_nul _ _),
        fmt_prec_s_full s (by omega) h0]
      exact List.take_of_length_le (by omega)
    · intro h
      exact absurd hgt h
  · refine ⟨cst, [.print "Received from sensor "], ?_, ?_, ?_⟩
    · simp only [SensorCallback, gg_obj_type, ne_eq, not_true_eq_false, if_false, hparse, hgt]
    · intro h
      exact absurd h hgt
    · intro _
      have hle : gg_obj_into_i64 sdk (.i64 t) ≤ 80 := not_lt.mp hgt
      have hn : ¬ gg_obj_into_i64 sdk (.i64 t) > 80 := hgt
      refine ⟨?_, rfl⟩
      have hs : gg_map_get (sensor_map s t) (ascii "sensor_id") = some (.buf s) := rfl
      have ht : gg_map_get (sensor_map s t) (ascii "temperature") = some (.i64 t) := rfl
      simp [on_sensor_data, gg_obj_type, gg_obj_into_map, hs, ht, hn]

/-- Instance of C15 amended: sensor `s1` at 85 degrees from the initial
mailboxes. -/
theorem processors_agree_on_temperature_witness :
    (∀ b ∈ ascii "s1", b ≠ 34) ∧ (∀ b ∈ ascii "s1", b ≠ 92) ∧ (∀ b ∈ ascii "s1", b ≠ 0)
    ∧ (ascii "s1").length ≤ 63 ∧ -(2 : Int) ^ 63 ≤ 85 ∧ (85 : Int) < (2 : Int) ^ 63
    ∧ ∃ cst1 tr, SensorCallback (.buf (sensor_json (ascii "s1") 85)) CppProcessorState.init
          = .ok (cst1, tr)
      ∧ ((85 : Int) > 80 →
          (on_sensor_data sdk_zero (.map (sensor_map (ascii "s1") 85))
            ProcessorState.init).1.has_pending_alert = true
          ∧ (on_sensor_data sdk_zero (.map (sensor_map (ascii "s1") 85))
            ProcessorState.init).1.pending_alert.temperature = 85
          ∧ cstr (on_sensor_data sdk_zero (.map (sensor_map (ascii "s1") 85))
            ProcessorState.init).1.pending_alert.sensor_id = ascii "s1"
          ∧ cst1 = { pending_alert := { sensor_id := ascii "sensor1", temperature := 85 },
                     has_pending_alert := true })
      ∧ (¬ (85 : Int) > 80 →
          (on_sensor_data sdk_zero (.map (sensor_map (ascii "s1") 85))
            ProcessorState.init).1 = ProcessorState.init ∧ cst1 = CppProcessorState.init) :=
  ⟨by decide, by decide, by decide, by decide, by decide, by decide,
    processors_agree_on_temperature sdk_zero (ascii "s1") 85 ProcessorState.init
      CppProcessorState.init (by decide) (by decide) (by decide) (by decide) (by decide)
      (by decide)⟩

/-! ## Decoding of well-formed command payloads -/

theorem strstr_skip (l r ps : Bytes) (p0 : Nat) (h : ∀ b ∈ l, b ≠ p0) :
    strstr (l ++ r) (p0 :: ps) = strstr r (p0 :: ps) := by
  induction l with
  | nil => rfl
  | cons a t ih =>
    have ha : a ≠ p0 := h a (List.mem_cons_self a t)
    have ht : ∀ b ∈ t, b ≠ p0 := fun b hb => h b (List.mem_cons_of_mem a hb)
    have hpre : (p0 :: ps).isPrefixOf (a :: (t ++ r)) = false := by
      simp [List.isPrefixOf, Ne.symm ha]
    show strstr (a :: (t ++ r)) (p0 :: ps) = _
    rw [strstr, hpre, if_neg (by simp), ih ht]

theorem isPrefixOf_key_iff (key c rest : Bytes) (hk : ∀ b ∈ key, b ≠ 34)
    (hc : ∀ b ∈ c, b ≠ 34) :
    (key ++ [34]).isPrefixOf (c ++ 34 :: rest) = true ↔ c = key := by
  induction key generalizing c with
  | nil =>
    cases c with
    | nil => simp [List.isPrefixOf]
    | cons a t =>
      have ha : a ≠ 34 := hc a (List.mem_cons_self a t)
      simp [List.isPrefixOf, Ne.symm ha]
  | cons x key ih =>
    have hx : x ≠ 34 := hk x (List.mem_cons_self x key)
    have hk2 : ∀ b ∈ key, b ≠ 34 := fun b hb => hk b (List.mem_cons_of_mem x hb)
    cases c with
    | nil => simp [List.isPrefixOf, hx]
    | cons a t =>
      have ht : ∀ b ∈ t, b ≠ 34 := fun b hb => hc b (List.mem_cons_of_mem a hb)
      have hrec := ih t hk2 ht
      have e : List.isPrefixOf (x :: key ++ [34]) (a :: t ++ 34 :: rest)
          = ((x == a) && List.isPrefixOf (key ++ [34]) (t ++ 34 :: rest)) := rfl
      rw [e, Bool.and_eq_true, beq_iff_eq, hrec, List.cons.injEq]
      constructor
      · rintro ⟨h1, h2⟩
        exact ⟨h1.symm, h2⟩
      · rintro ⟨h1, h2⟩
        exact ⟨h1.symm, h2⟩

theorem extract_value_after (pre d rest field : Bytes) (hpre : ∀ b ∈ pre, b ≠ 58)
    (hq : ∀ b ∈ d, b ≠ 34) (hlen : d.length < 64) :
    extract_value (pre ++ 58 :: 34 :: (d ++ 34 :: rest)) field
      = some ((strncpy field (d ++ 34 :: rest) d.length).set d.length 0) := by
  have hcolon : ascii ":" = [58] := rfl
  have hfind : strstr (pre ++ 58 :: 34 :: (d ++ 34 :: rest)) [58]
      = some (58 :: 34 :: (d ++ 34 :: rest)) := by
    rw [strstr_skip pre _ [] 58 hpre]
    simp [strstr, List.isPrefixOf]
  have hopen : strchr (58 :: 34 :: (d ++ 34 :: rest)) 34 = some (34 :: (d ++ 34 :: rest)) := by
    simp [strchr]
  have hend : strchr (d ++ 34 :: rest) 34 = some (34 :: rest) :=
    strchr_append_of_not_mem d rest 34 hq
  have hdiff : ptr_diff (34 :: rest) (d ++ 34 :: rest) = d.length := by
    simp [ptr_diff]
  simp only [extract_value, hcolon, hfind, hopen, List.tail_cons, hend, hdiff]
  simp [hlen]

theorem cstr_field_after (pre d rest field : Bytes) (hpre : ∀ b ∈ pre, b ≠ 58)
    (hq : ∀ b ∈ d, b ≠ 34) (h0 : ∀ b ∈ d, b ≠ 0) (hlen : d.length < 64)
    (hfield : field.length = 64) :
    cstr (field_after (pre ++ 58 :: 34 :: (d ++ 34 :: rest)) field) = d := by
  rw [field_after, extract_value_after pre d rest field hpre hq hlen]
  exact cstr_copy_terminated field d _ (by omega) h0

theorem cstr_strcpy_device1 (field : Bytes) :
    cstr (strcpy field (ascii "device1")) = ascii "device1" := by
  have hlit : ascii "device1" = [100, 101, 118, 105, 99, 101, 49] := rfl
  simp only [strcpy, write_bytes, List.append_assoc, List.singleton_append]
  exact cstr_append_nul _ _ (by rw [hlit]; decide)

theorem command_payload_no_device_id (c : Bytes) (hq : ∀ b ∈ c, b ≠ 34)
    (hne : c ≠ ascii "device_id") :
    strstr (command_payload c) (ascii "\"device_id\"") = none := by
  have hlit : ascii "\x7b\"command\":\""
      = [123, 34, 99, 111, 109, 109, 97, 110, 100, 34, 58, 34] := rfl
  have hpost : ascii "\"\x7d" = [34, 125] := rfl
  have hkey : ascii "\"device_id\""
      = 34 :: ([100, 101, 118, 105, 99, 101, 95, 105, 100] ++ [34]) := rfl
  have hk : ascii "device_id" = [100, 101, 118, 105, 99, 101, 95, 105, 100] := rfl
  have hval : (34 :: ([100, 101, 118, 105, 99, 101, 95, 105, 100] ++ [34])).isPrefixOf
      (34 :: (c ++ 34 :: [125])) = false := by
    rw [List.isPrefixOf]
    simp only [beq_self_eq_true, Bool.true_and]
    cases h : ([100, 101, 118, 105, 99, 101, 95, 105, 100] ++ [34]).isPrefixOf
        (c ++ 34 :: [125]) with
    | false => rfl
    | true =>
      exact absurd (((isPrefixOf_key_iff _ c [125] (by decide) hq).mp h).trans hk.symm) hne
  have hfrom : strstr (34 :: (c ++ 34 :: [125]))
      (34 :: ([100, 101, 118, 105, 99, 101, 95, 105, 100] ++ [34])) = none := by
    rw [strstr, hval, if_neg (by simp), strstr_skip c _ _ 34 hq]
    simp [strstr, List.isPrefixOf]
  have htext : command_payload c
      = [123, 34, 99, 111, 109, 109, 97, 110, 100, 34, 58] ++ (34 :: (c ++ 34 :: [125])) := by
    simp [command_payload, hlit, hpost]
  rw [htext, hkey]
  have hstep : ∀ X : Bytes,
      strstr ([123, 34, 99, 111, 109, 109, 97, 110, 100, 34, 58] ++ X)
        (34 :: ([100, 101, 118, 105, 99, 101, 95, 105, 100] ++ [34]))
      = strstr X (34 :: ([100, 101, 118, 105, 99, 101, 95, 105, 100] ++ [34])) := by
    intro X
    simp [strstr, List.isPrefixOf]
  rw [hstep, hfrom]

theorem on_cloud_command_default_device (c : Bytes) (st : ControllerState)
    (hq : ∀ b ∈ c, b ≠ 34) (h0 : ∀ b ∈ c, b ≠ 0) (hlen : c.length < 64)
    (hfield : st.pending_command.command.length = 64) (hne : c ≠ ascii "device_id") :
    (on_cloud_command (command_payload c) st).1.has_pending_command = true
    ∧ cstr (on_cloud_command (command_payload c) st).1.pending_command.command = c
    ∧ cstr (on_cloud_command (command_payload c) st).1.pending_command.device_id
        = ascii "device1" := by
  obtain ⟨hflag, hcmd⟩ := on_cloud_command_command_payload c st hq h0 hlen hfield
  refine ⟨hflag, hcmd, ?_⟩
  unfold on_cloud_command
  rw [command_payload_text c h0 hlen, command_payload_start c,
    command_payload_no_device_id c hq hne]
  exact cstr_strcpy_device1 _

theorem strstr_at_quote (k c rest : Bytes) (hk : ∀ b ∈ k, b ≠ 34) (hc : ∀ b ∈ c, b ≠ 34) :
    strstr (34 :: (c ++ 34 :: rest)) (34 :: (k ++ [34]))
      = if c = k then some (34 :: (c ++ 34 :: rest))
        else strstr (34 :: rest) (34 :: (k ++ [34])) := by
  have e : List.isPrefixOf (34 :: (k ++ [34])) (34 :: (c ++ 34 :: rest))
      = List.isPrefixOf (k ++ [34]) (c ++ 34 :: rest) := by
    simp [List.isPrefixOf]
  rw [strstr, e]
  by_cases h : c = k
  · rw [if_pos ((isPrefixOf_key_iff k c rest hk hc).mpr h), if_pos h]
  · have hf : ¬ List.isPrefixOf (k ++ [34]) (c ++ 34 :: rest) = true :=
      fun hh => h ((isPrefixOf_key_iff k c rest hk hc).mp hh)
    rw [if_neg hf, if_neg h, strstr_skip c _ _ 34 hc]

theorem strstr_first_key (k1 v1 k2 v2 : Bytes) (hk1 : ∀ b ∈ k1, b ≠ 34) :
    strstr (two_fields k1 v1 k2 v2) (34 :: (k1 ++ [34]))
      = some ((34 :: (k1 ++ [34])) ++ 58 :: 34 :: (v1 ++ 34 :: (44 :: 34 ::
          (k2 ++ 34 :: 58 :: 34 :: (v2 ++ 34 :: [125]))))) := by
  have h0 : strstr (two_fields k1 v1 k2 v2) (34 :: (k1 ++ [34]))
      = strstr (34 :: (k1 ++ 34 :: 58 :: 34 :: (v1 ++ 34 :: 44 :: 34 ::
          (k2 ++ 34 :: 58 :: 34 :: (v2 ++ 34 :: [125]))))) (34 :: (k1 ++ [34])) := by
    unfold two_fields
    rw [strstr]
    simp [List.isPrefixOf]
  rw [h0, strstr_at_quote k1 k1 _ hk1 hk1, if_pos rfl]
  simp

theorem strstr_second_key (k1 v1 k2 v2 : Bytes) (hk1 : ∀ b ∈ k1, b ≠ 34)
    (hk2 : ∀ b ∈ k2, b ≠ 34) (hv1 : ∀ b ∈ v1, b ≠ 34) (hcolon : ∀ b ∈ k2, b ≠ 58)
    (hne : k1 ≠ k2) (hne1 : k2 ≠ [58]) (hne2 : k2 ≠ [44]) :
    ∃ pre, strstr (two_fields k1 v1 k2 v2) (34 :: (k2 ++ [34]))
        = some (pre ++ 58 :: 34 :: (v2 ++ 34 :: [125]))
      ∧ ∀ b ∈ pre, b ≠ 58 := by
  have h0 : strstr (two_fields k1 v1 k2 v2) (34 :: (k2 ++ [34]))
      = strstr (34 :: (k1 ++ 34 :: ([58] ++ 34 :: (v1 ++ 34 :: ([44] ++ 34 ::
          (k2 ++ 34 :: 58 :: 34 :: (v2 ++ 34 :: [125]))))))) (34 :: (k2 ++ [34])) := by
    unfold two_fields
    rw [strstr]
    simp [List.isPrefixOf]
  rw [h0, strstr_at_quote k2 k1 _ hk2 hk1, if_neg hne,
    strstr_at_quote k2 [58] _ hk2 (by decide), if_neg (Ne.symm hne1),
    strstr_at_quote k2 v1 _ hk2 hv1]
  by_cases hv : v1 = k2
  · rw [if_pos hv]
    refine ⟨34 :: (v1 ++ 34 :: 44 :: 34 :: (k2 ++ [34])), by simp, ?_⟩
    intro b hb
    simp only [List.mem_cons, List.mem_append, List.mem_singleton, List.not_mem_nil,
      or_false] at hb
    rcases hb with h | h | h | h | h | h | h
    · omega
    · exact hcolon b (hv ▸ h)
    · omega
    · omega
    · omega
    · exact hcolon b h
    · omega
  · rw [if_neg hv, strstr_at_quote k2 [44] _ hk2 (by decide), if_neg (Ne.symm hne2),
      strstr_at_quote k2 k2 _ hk2 hk2, if_pos rfl]
    refine ⟨34 :: (k2 ++ [34]), by simp, ?_⟩
    intro b hb
    simp only [List.mem_cons, List.mem_append, List.mem_singleton, List.not_mem_nil,
      or_false] at hb
    rcases hb with h | h | h
    · omega
    · exact hcolon b h
    · omega

theorem two_fields_text (k1 v1 k2 v2 : Bytes) (hk1 : ∀ b ∈ k1, b ≠ 0) (hv1 : ∀ b ∈ v1, b ≠ 0)
    (hk2 : ∀ b ∈ k2, b ≠ 0) (hv2 : ∀ b ∈ v2, b ≠ 0)
    (hlen : k1.length + v1.length + k2.length + v2.length ≤ 490) :
    payload_str (two_fields k1 v1 k2 v2) = two_fields k1 v1 k2 v2 := by
  apply payload_str_of_text
  · intro b hb
    simp only [two_fields, List.mem_cons, List.mem_append, List.mem_singleton,
      List.not_mem_nil, or_false] at hb
    rcases hb with h | h | h | h | h | h | h | h | h | h | h | h | h | h | h | h | h | h
    all_goals first
      | omega
      | exact hk1 b h
      | exact hv1 b h
      | exact hk2 b h
      | exact hv2 b h
  · simp only [two_fields, List.length_cons, List.length_append, List.length_nil]
    omega

theorem on_cloud_command_command_device (c d : Bytes) (st : ControllerState)
    (hqc : ∀ b ∈ c, b ≠ 34) (h0c : ∀ b ∈ c, b ≠ 0) (hlc : c.length < 64)
    (hqd : ∀ b ∈ d, b ≠ 34) (h0d : ∀ b ∈ d, b ≠ 0) (hld : d.length < 64)
    (hfc : st.pending_command.command.length = 64)
    (hfd : st.pending_command.device_id.length = 64) :
    (on_cloud_command (command_device_payload c d) st).1.has_pending_command = true
    ∧ cstr (on_cloud_command (command_device_payload c d) st).1.pending_command.command = c
    ∧ cstr (on_cloud_command (command_device_payload c d) st).1.pending_command.device_id
        = d := by
  have hkc : ascii "command" = [99, 111, 109, 109, 97, 110, 100] := rfl
  have hkd : ascii "device_id" = [100, 101, 118, 105, 99, 101, 95, 105, 100] := rfl
  have htext : command_device_payload c d
      = two_fields (ascii "command") c (ascii "device_id") d := by
    have h1 : ascii "\x7b\"command\":\""
        = [123, 34, 99, 111, 109, 109, 97, 110, 100, 34, 58, 34] := rfl
    have h2 : ascii "\",\"device_id\":\""
        = [34, 44, 34, 100, 101, 118, 105, 99, 101, 95, 105, 100, 34, 58, 34] := rfl
    have h3 : ascii "\"\x7d" = [34, 125] := rfl
    simp [command_device_payload, two_fields, h1, h2, h3, hkc, hkd]
  have hkey1 : ascii "\"command\"" = 34 :: (ascii "command" ++ [34]) := rfl
  have hkey2 : ascii "\"device_id\"" = 34 :: (ascii "device_id" ++ [34]) := rfl
  have hps := two_fields_text (ascii "command") c (ascii "device_id") d (by rw [hkc]; decide)
    h0c (by rw [hkd]; decide) h0d (by rw [hkc, hkd]; simp; omega)
  obtain ⟨pre, hfind, hpre⟩ := strstr_second_key (ascii "command") c (ascii "device_id") d
    (by rw [hkc]; decide) (by rw [hkd]; decide) hqc (by rw [hkd]; decide)
    (by rw [hkc, hkd]; decide) (by rw [hkd]; decide) (by rw [hkd]; decide)
  have hfirst := strstr_first_key (ascii "command") c (ascii "device_id") d
    (by rw [hkc]; decide)
  unfold on_cloud_command
  rw [htext, hps, hkey1, hkey2, hfirst, hfind]
  refine ⟨rfl, ?_, ?_⟩
  · exact cstr_field_after (34 :: (ascii "command" ++ [34])) c _ _ (by rw [hkc]; decide)
      hqc h0c hlc hfc
  · exact cstr_field_after pre d [125] _ hpre hqd h0d hld hfd

theorem on_cloud_command_device_command (c d : Bytes) (st : ControllerState)
    (hqc : ∀ b ∈ c, b ≠ 34) (h0c : ∀ b ∈ c, b ≠ 0) (hlc : c.length < 64)
    (hqd : ∀ b ∈ d, b ≠ 34) (h0d : ∀ b ∈ d, b ≠ 0) (hld : d.length < 64)
    (hfc : st.pending_command.command.length = 64)
    (hfd : st.pending_command.device_id.length = 64) :
    (on_cloud_command (device_command_payload c d) st).1.has_pending_command = true
    ∧ cstr (on_cloud_command (device_command_payload c d) st).1.pending_command.command = c
    ∧ cstr (on_cloud_command (device_command_payload c d) st).1.pending_command.device_id
        = d := by
  have hkc : ascii "command" = [99, 111, 109, 109, 97, 110, 100] := rfl
  have hkd : ascii "device_id" = [100, 101, 118, 105, 99, 101, 95, 105, 100] := rfl
  have htext : device_command_payload c d
      = two_fields (ascii "device_id") d (ascii "command") c := by
    have h1 : ascii "\x7b\"device_id\":\""
        = [123, 34, 100, 101, 118, 105, 99, 101, 95, 105, 100, 34, 58, 34] := rfl
    have h2 : ascii "\",\"command\":\""
        = [34, 44, 34, 99, 111, 109, 109, 97, 110, 100, 34, 58, 34] := rfl
    have h3 : ascii "\"\x7d" = [34, 125] := rfl
    simp [device_command_payload, two_fields, h1, h2, h3, hkc, hkd]
  have hkey1 : ascii "\"command\"" = 34 :: (ascii "command" ++ [34]) := rfl
  have hkey2 : ascii "\"device_id\"" = 34 :: (ascii "device_id" ++ [34]) := rfl
  have hps := two_fields_text (ascii "device_id") d (ascii "command") c (by rw [hkd]; decide)
    h0d (by rw [hkc]; decide) h0c (by rw [hkc, hkd]; simp; omega)
  obtain ⟨pre, hfind, hpre⟩ := strstr_second_key (ascii "device_id") d (ascii "command") c
    (by rw [hkd]; decide) (by rw [hkc]; decide) hqd (by rw [hkc]; decide)
    (by rw [hkc, hkd]; decide) (by rw [hkc]; decide) (by rw [hkc]; decide)
  have hfirst := strstr_first_key (ascii "device_id") d (ascii "command") c
    (by rw [hkd]; decide)
  unfold on_cloud_command
  rw [htext, hps, hkey1, hkey2, hfirst, hfind]
  refine ⟨rfl, ?_, ?_⟩
  · exact cstr_field_after pre c [125] _ hpre hqc h0c hlc hfc
  · exact cstr_field_after (34 :: (ascii "device_id" ++ [34])) d _ _ (by rw [hkd]; decide)
      hqd h0d hld hfd

/-! ## Threads serialise on the mutex -/

theorem mutex_step_holds (h h1 : Option Nat) (j : Nat) (s : Step)
    (hs : mutex_step h j s = some h1) :
    (h1 == some j) = s.holds (h == some j)
    ∧ ∀ i, i ≠ j → (h1 == some i) = (h == some i) := by
  cases s with
  | wake =>
    simp only [mutex_step] at hs
    split at hs
    · rename_i hn
      cases hs
      subst hn
      refine ⟨by simp [Step.holds], ?_⟩
      intro i hij
      simp [Ne.symm hij]
    · cases hs
  | call e =>
    cases e <;> simp only [mutex_step] at hs
    case mutex_lock =>
      split at hs
      · rename_i hn
        cases hs
        subst hn
        refine ⟨by simp [Step.holds], ?_⟩
        intro i hij
        simp [Ne.symm hij]
      · cases hs
    case mutex_unlock =>
      split at hs
      · rename_i hn
        cases hs
        subst hn
        refine ⟨by simp [Step.holds], ?_⟩
        intro i hij
        simp [Ne.symm hij]
      · cases hs
    case cond_wait =>
      split at hs
      · rename_i hn
        cases hs
        subst hn
        refine ⟨by simp [Step.holds], ?_⟩
        intro i hij
        simp [Ne.symm hij]
      · cases hs
    all_goals
      cases hs
      exact ⟨rfl, fun _ _ => rfl⟩

theorem mutex_serializes (sched : List (Nat × Step)) : ∀ (h : Option Nat),
    allowed h sched = true →
    (∀ i, disciplined (h == some i) (thread_steps i sched) = true) →
    accesses_by_holder h sched = true := by
  induction sched with
  | nil => intro h _ _; rfl
  | cons x rest ih =>
    intro h hal hd
    obtain ⟨j, s⟩ := x
    cases hm : mutex_step h j s with
    | none => simp [allowed, hm] at hal
    | some h1 =>
      have hal1 : allowed h1 rest = true := by simpa [allowed, hm] using hal
      obtain ⟨hj, hother⟩ := mutex_step_holds h h1 j s hm
      have hdj := hd j
      have hts : thread_steps j ((j, s) :: rest) = s :: thread_steps j rest := by
        simp [thread_steps]
      rw [hts] at hdj
      simp only [disciplined, Bool.and_eq_true] at hdj
      have hrest : ∀ i, disciplined (h1 == some i) (thread_steps i rest) = true := by
        intro i
        by_cases hij : i = j
        · subst hij
          rw [hj]
          exact hdj.2
        · have hti : thread_steps i ((j, s) :: rest) = thread_steps i rest := by
            have : (j == i) = false := by simpa using Ne.symm hij
            simp [thread_steps, this]
          have := hd i
          rw [hti] at this
          rw [hother i hij]
          exact this
      simp only [accesses_by_holder, hm, Option.getD_some, Bool.and_eq_true]
      exact ⟨hdj.1, ih h1 hal1 hrest⟩

theorem disciplined_append (a c : List Step) : ∀ b,
    disciplined b (a ++ c) = (disciplined b a && disciplined (held_after b a) c) := by
  induction a with
  | nil => intro b; simp [disciplined, held_after]
  | cons x t ih =>
    intro b
    show disciplined b (x :: (t ++ c)) = _
    simp only [disciplined, ih, held_after, List.foldl_cons, Bool.and_assoc]

theorem held_after_append (a c : List Step) (b : Bool) :
    held_after b (a ++ c) = held_after (held_after b a) c := by
  simp [held_after, List.foldl_append]

theorem disciplined_of_prefix (l1 l2 : List Step) (b : Bool) (hp : l1 <+: l2)
    (h : disciplined b l2 = true) : disciplined b l1 = true := by
  obtain ⟨t, rfl⟩ := hp
  rw [disciplined_append, Bool.and_eq_true] at h
  exact h.1

theorem disciplined_units (units : List (List Event)) (h : ∀ u ∈ units, unit_ok u) :
    disciplined false (steps_of_all units) = true
    ∧ held_after false (steps_of_all units) = false := by
  induction units with
  | nil => exact ⟨rfl, rfl⟩
  | cons u rest ih =>
    have hu : unit_ok u := h u (List.mem_cons_self u rest)
    have hr := ih (fun v hv => h v (List.mem_cons_of_mem u hv))
    have e : steps_of_all (u :: rest) = steps_of u ++ steps_of_all rest := by
      simp [steps_of_all]
    rw [e, disciplined_append, held_after_append, hu.1, hu.2, hr.1, hr.2]
    exact ⟨rfl, rfl⟩

theorem steps_of_no_wait (l : List Event) (h : ∀ e ∈ l, e.isWait = false) :
    steps_of l = l.map Step.call := by
  induction l with
  | nil => rfl
  | cons a t ih =>
    have ha : a.isWait = false := h a (List.mem_cons_self a t)
    have ht := ih (fun e he => h e (List.mem_cons_of_mem a he))
    cases a <;> first
      | (simp [Event.isWait] at ha; done)
      | simp [steps_of, ht]

theorem unit_ok_of_no_wait (l : List Event) (h : ∀ e ∈ l, e.isWait = false)
    (ha : accesses_unlocked false l = false) (he : held_at_end false l = false) :
    unit_ok l := by
  have key : ∀ (l : List Event) (b : Bool), (∀ e ∈ l, e.isWait = false) →
      disciplined b (l.map Step.call) = !accesses_unlocked b l
      ∧ held_after b (l.map Step.call) = held_at_end b l := by
    intro l
    induction l with
    | nil => intro b _; exact ⟨rfl, rfl⟩
    | cons a t ih =>
      intro b hw
      have haw : a.isWait = false := hw a (List.mem_cons_self a t)
      have hstep : (Step.call a).holds b = a.holds b := by
        cases a <;> first
          | (simp [Event.isWait] at haw; done)
          | rfl
      have := ih (a.holds b) (fun e he => hw e (List.mem_cons_of_mem a he))
      constructor
      · simp only [List.map_cons, disciplined, Step.isAccess, hstep, this.1, accesses_unlocked]
        cases b <;> cases a.isAccess <;> simp
      · simp only [List.map_cons, held_after, List.foldl_cons, hstep, held_at_end]
        have h2 := this.2
        simp only [held_after, held_at_end] at h2
        exact h2
  rw [unit_ok, steps_of_no_wait l h, (key l false h).1, (key l false h).2, ha, he]
  exact ⟨rfl, rfl⟩

theorem wait_loop_false_steps (w : Nat) :
    (∃ tl, (wait_loop false w).2 = .read_flag :: tl)
    ∧ disciplined true (steps_of (wait_loop false w).2) = true
    ∧ held_after true (steps_of (wait_loop false w).2) = false := by
  induction w with
  | zero => exact ⟨⟨_, rfl⟩, rfl, rfl⟩
  | succ k ih =>
    obtain ⟨⟨tl, htl⟩, h2, h3⟩ := ih
    have e : (wait_loop false (k + 1)).2 = .read_flag :: .cond_wait :: (wait_loop false k).2 := by
      simp [wait_loop]
    have e2 : steps_of (.read_flag :: .cond_wait :: (wait_loop false k).2)
        = .call .read_flag :: .call .cond_wait :: .wake :: steps_of (wait_loop false k).2 := by
      rw [htl]
      rfl
    refine ⟨⟨_, e⟩, ?_, ?_⟩
    · rw [e, e2]
      simp only [disciplined, Step.isAccess, Event.isAccess, Step.holds, Bool.not_true,
        Bool.not_false, Bool.or_true, Bool.true_or, Bool.true_and, h2]
    · rw [e, e2]
      simp only [held_after, List.foldl_cons, Step.holds]
      exact h3

theorem unit_ok_waiting (w : Nat) : unit_ok (.mutex_lock :: (wait_loop false w).2) := by
  obtain ⟨⟨tl, htl⟩, h2, h3⟩ := wait_loop_false_steps w
  have e : steps_of (.mutex_lock :: (wait_loop false w).2)
      = .call .mutex_lock :: steps_of (wait_loop false w).2 := by
    rw [htl]
    rfl
  rw [unit_ok, e]
  constructor
  · simp only [disciplined, Step.isAccess, Event.isAccess, Step.holds, Bool.not_false,
      Bool.true_or, Bool.true_and, h2]
  · simp only [held_after, List.foldl_cons, Step.holds]
    exact h3

theorem on_cloud_command_locked (payload : Bytes) (cst : ControllerState) :
    accesses_unlocked false (on_cloud_command payload cst).2 = false
    ∧ held_at_end false (on_cloud_command payload cst).2 = false
    ∧ ∀ e ∈ (on_cloud_command payload cst).2, e.isWait = false := by
  rcases on_cloud_command_trace payload cst with h | ⟨writes, hw, h⟩
  · rw [h]
    refine ⟨rfl, rfl, ?_⟩
    intro e he
    simp only [List.mem_singleton] at he
    rw [he]
    rfl
  · have e : [Event.print "Received command from IoT Core: %.*s\n", .mutex_lock] ++ writes
          ++ [.read_slot, .print "Received command from cloud: %s\n", .write_flag,
              .cond_signal, .mutex_unlock]
        = .print "Received command from IoT Core: %.*s\n" :: .mutex_lock
            :: (writes ++ [.read_slot, .print "Received command from cloud: %s\n",
                  .write_flag, .cond_signal, .mutex_unlock]) := by
      simp
    rw [h, e]
    refine ⟨?_, ?_, ?_⟩
    · show accesses_unlocked true (writes ++ _) = false
      rw [accesses_unlocked_writes writes _ hw]
      rfl
    · show held_at_end true (writes ++ _) = false
      rw [held_at_end_writes writes _ hw]
      rfl
    · intro x hx
      simp only [List.mem_cons, List.mem_append, List.mem_singleton, List.not_mem_nil,
        or_false] at hx
      rcases hx with hx | hx | hx | hx | hx | hx | hx | hx
      · rw [hx]; rfl
      · rw [hx]; rfl
      · rw [hw x hx]; rfl
      · rw [hx]; rfl
      · rw [hx]; rfl
      · rw [hx]; rfl
      · rw [hx]; rfl
      · rw [hx]; rfl

theorem processor_trace_unit_ok (tr : List Event) (h : processor_trace tr) : unit_ok tr := by
  rcases h with ⟨sdk, obj, st, rfl⟩ | ⟨ret, w, st, rfl⟩
  · rcases on_sensor_data_trace sdk obj st with h | ⟨_, h | h | h | h⟩ <;> rw [h] <;>
      exact ⟨rfl, rfl⟩
  · rcases alert_publisher_thread_shape ret w st with h | h | h <;> rw [h]
    · exact unit_ok_waiting w
    · exact ⟨rfl, rfl⟩
    · exact ⟨rfl, rfl⟩

theorem controller_trace_unit_ok (tr : List Event) (h : controller_trace tr) : unit_ok tr := by
  rcases h with ⟨payload, st, rfl⟩ | ⟨ret, now, w, st, rfl⟩
  · obtain ⟨h1, h2, h3⟩ := on_cloud_command_locked payload st
    exact unit_ok_of_no_wait _ h3 h1 h2
  · rcases telemetry_publisher_thread_shape ret now w st with h | h | h | h <;> rw [h]
    · exact unit_ok_waiting w
    · exact ⟨rfl, rfl⟩
    · exact ⟨rfl, rfl⟩
    · exact ⟨rfl, rfl⟩

theorem threads_serialize (ok : List Event → Prop) (hok : ∀ tr, ok tr → unit_ok tr)
    (sched : List (Nat × Step)) (hal : allowed none sched = true)
    (hth : ∀ i, ∃ units : List (List Event),
      (∀ u ∈ units, ok u) ∧ thread_steps i sched <+: steps_of_all units) :
    accesses_by_holder none sched = true := by
  apply mutex_serializes sched none hal
  intro i
  obtain ⟨units, hu, hp⟩ := hth i
  have hd := (disciplined_units units (fun u hm => hok u (hu u hm))).1
  exact disciplined_of_prefix _ _ _ hp hd

/-- C14. Lock discipline in `v2_processor.c` and `v2_controller.c`: in the
trace of every handler invocation and of every worker iteration, each read and
each write of the slot and of the flag is made while the thread holds the
mutex; a handler returns with the mutex released, and so does a worker
iteration that has taken a record. Hence, in every schedule of several threads
that the mutex allows, each thread running handler invocations or worker
iterations one after the other, every access to the slot or the flag is made
by the one thread that holds the mutex at that moment. -/
theorem slot_access_under_lock (sdk : SdkMismatch) (obj : GgObject) (payload : Bytes)
    (ret : GgError) (now : Int) (w : Nat) (pst : ProcessorState) (cst : ControllerState) :
    (accesses_unlocked false (on_sensor_data sdk obj pst).2 = false
      ∧ held_at_end false (on_sensor_data sdk obj pst).2 = false)
    ∧ (accesses_unlocked false (on_cloud_command payload cst).2 = false
      ∧ held_at_end false (on_cloud_command payload cst).2 = false)
    ∧ accesses_unlocked false (alert_publisher_thread ret w pst).trace = false
    ∧ accesses_unlocked false (telemetry_publisher_thread ret now w cst).trace = false
    ∧ (∀ st1 tr, alert_publisher_thread ret w pst = .loop_top st1 tr →
        held_at_end false tr = false)
    ∧ (∀ st1 tr, telemetry_publisher_thread ret now w cst = .loop_top st1 tr →
        held_at_end false tr = false)
    ∧ (∀ sched : List (Nat × Step), allowed none sched = true →
        (∀ i, ∃ units : List (List Event),
          (∀ u ∈ units, processor_trace u) ∧ thread_steps i sched <+: steps_of_all units) →
        accesses_by_holder none sched = true)
    ∧ (∀ sched : List (Nat × Step), allowed none sched = true →
        (∀ i, ∃ units : List (List Event),
          (∀ u ∈ units, controller_trace u) ∧ thread_steps i sched <+: steps_of_all units) →
        accesses_by_holder none sched = true) := by
  refine ⟨?_, ?_, ?_, ?_, ?_, ?_, ?_, ?_⟩
  · rcases on_sensor_data_trace sdk obj pst with h | ⟨_, h | h | h | h⟩ <;> rw [h] <;>
      exact ⟨rfl, rfl⟩
  · exact ⟨(on_cloud_command_locked payload cst).1, (on_cloud_command_locked payload cst).2.1⟩
  · rcases alert_publisher_thread_shape ret w pst with h | h | h <;> rw [h]
    · simp [Iteration.trace, accesses_unlocked, Event.isAccess, Event.holds,
        (wait_loop_false_locked w).2.1]
    · rfl
    · rfl
  · rcases telemetry_publisher_thread_shape ret now w cst with h | h | h | h <;> rw [h]
    · simp [Iteration.trace, accesses_unlocked, Event.isAccess, Event.holds,
        (wait_loop_false_locked w).2.1]
    · rfl
    · rfl
    · rfl
  · intro st1 tr htr
    rcases alert_publisher_thread_shape ret w pst with h | h | h <;> rw [h] at htr <;>
      cases htr <;> rfl
  · intro st1 tr htr
    rcases telemetry_publisher_thread_shape ret now w cst with h | h | h | h <;>
      rw [h] at htr <;> cases htr <;> rfl
  · exact fun sched hal hth => threads_serialize processor_trace processor_trace_unit_ok
      sched hal hth
  · exact fun sched hal hth => threads_serialize controller_trace controller_trace_unit_ok
      sched hal hth

theorem thread_steps_append (i : Nat) (a b : List (Nat × Step)) :
    thread_steps i (a ++ b) = thread_steps i a ++ thread_steps i b := by
  simp [thread_steps]

theorem thread_steps_by_thread (i j : Nat) (tr : List Event) :
    thread_steps i (by_thread j tr) = if j = i then steps_of tr else [] := by
  unfold thread_steps by_thread
  by_cases h : j = i
  · subst h
    simp [List.filter_map, Function.comp_def]
  · have hb : (j == i) = false := by simpa using h
    simp [List.filter_map, Function.comp_def, hb, h]

theorem sample_schedule_threads (i : Nat) :
    ∃ units : List (List Event),
      (∀ u ∈ units, processor_trace u) ∧ thread_steps i sample_schedule <+: steps_of_all units := by
  have hsteps : thread_steps i sample_schedule
      = (if 1 = i then steps_of (alert_publisher_thread GG_ERR_OK 0
            ProcessorState.init).trace else [])
        ++ (if 0 = i then steps_of (on_sensor_data sdk_zero
            (.map (sensor_map (ascii "s1") 85)) ProcessorState.init).2 else [])
        ++ (if 1 = i then steps_of (alert_publisher_thread GG_ERR_OK 0
            (on_sensor_data sdk_zero (.map (sensor_map (ascii "s1") 85))
              ProcessorState.init).1).trace else []) := by
    simp only [sample_schedule, thread_steps_append, thread_steps_by_thread]
  by_cases h0 : 0 = i
  · subst h0
    refine ⟨[(on_sensor_data sdk_zero (.map (sensor_map (ascii "s1") 85))
        ProcessorState.init).2], ?_, ?_⟩
    · intro u hu
      simp only [List.mem_singleton] at hu
      exact Or.inl ⟨_, _, _, hu⟩
    · rw [hsteps]
      simp [steps_of_all]
  · by_cases h1 : 1 = i
    · subst h1
      refine ⟨[(alert_publisher_thread GG_ERR_OK 0 ProcessorState.init).trace,
        (alert_publisher_thread GG_ERR_OK 0
          (on_sensor_data sdk_zero (.map (sensor_map (ascii "s1") 85))
            ProcessorState.init).1).trace], ?_, ?_⟩
      · intro u hu
        simp only [List.mem_cons, List.mem_singleton, List.not_mem_nil, or_false] at hu
        rcases hu with hu | hu
        · exact Or.inr ⟨_, _, _, hu⟩
        · exact Or.inr ⟨_, _, _, hu⟩
      · rw [hsteps]
        simp [steps_of_all]
    · refine ⟨[], by simp, ?_⟩
      rw [hsteps]
      simp [h0, h1, steps_of_all]

/-- Instance of C14: the sample alert and the command `get_status`, one
iteration of each worker on the pending sample mailboxes, the sample schedule
of a waiting worker, a put and a take, and an access without the mutex, which
is refused. -/
theorem slot_access_under_lock_witness :
    accesses_unlocked false
        (on_sensor_data sdk_zero (.map (sensor_map (ascii "s1") 85)) processor_pending).2 = false
    ∧ accesses_unlocked false
        (on_cloud_command (command_payload (ascii "get_status")) controller_pending).2 = false
    ∧ accesses_unlocked false (alert_publisher_thread GG_ERR_OK 2 processor_pending).trace
        = false
    ∧ held_at_end false (alert_publisher_thread GG_ERR_OK 2 processor_pending).trace = false
    ∧ allowed none sample_schedule = true
    ∧ sample_schedule.length = 17
    ∧ accesses_by_holder none sample_schedule = true
    ∧ accesses_by_holder none [(0, .call .read_slot)] = false :=
  ⟨(slot_access_under_lock sdk_zero (.map (sensor_map (ascii "s1") 85))
      (command_payload (ascii "get_status")) GG_ERR_OK 0 2 processor_pending
      controller_pending).1.1,
   (slot_access_under_lock sdk_zero (.map (sensor_map (ascii "s1") 85))
      (command_payload (ascii "get_status")) GG_ERR_OK 0 2 processor_pending
      controller_pending).2.1.1,
   (slot_access_under_lock sdk_zero (.map (sensor_map (ascii "s1") 85))
      (command_payload (ascii "get_status")) GG_ERR_OK 0 2 processor_pending
      controller_pending).2.2.1,
   (slot_access_under_lock sdk_zero (.map (sensor_map (ascii "s1") 85))
      (command_payload (ascii "get_status")) GG_ERR_OK 0 2 processor_pending
      controller_pending).2.2.2.2.1 { processor_pending with has_pending_alert := false }
      (alert_publisher_thread GG_ERR_OK 2 processor_pending).trace rfl,
   rfl, rfl,
   (slot_access_under_lock sdk_zero (.map (sensor_map (ascii "s1") 85))
      (command_payload (ascii "get_status")) GG_ERR_OK 0 2 processor_pending
      controller_pending).2.2.2.2.2.2.1 sample_schedule rfl sample_schedule_threads,
   rfl⟩

/-! ## No publish with the mutex held -/

theorem mutex_frees_publish (sched : List (Nat × Step)) : ∀ (h : Option Nat),
    allowed h sched = true →
    (∀ i, publish_unlocked (h == some i) (thread_steps i sched) = true) →
    publishes_by_nonholder h sched = true := by
  induction sched with
  | nil => intro h _ _; rfl
  | cons x rest ih =>
    intro h hal hd
    obtain ⟨j, s⟩ := x
    cases hm : mutex_step h j s with
    | none => simp [allowed, hm] at hal
    | some h1 =>
      have hal1 : allowed h1 rest = true := by simpa [allowed, hm] using hal
      obtain ⟨hj, hother⟩ := mutex_step_holds h h1 j s hm
      have hdj := hd j
      have hts : thread_steps j ((j, s) :: rest) = s :: thread_steps j rest := by
        simp [thread_steps]
      rw [hts] at hdj
      simp only [publish_unlocked, Bool.and_eq_true] at hdj
      have hrest : ∀ i, publish_unlocked (h1 == some i) (thread_steps i rest) = true := by
        intro i
        by_cases hij : i = j
        · subst hij
          rw [hj]
          exact hdj.2
        · have hti : thread_steps i ((j, s) :: rest) = thread_steps i rest := by
            have : (j == i) = false := by simpa using Ne.symm hij
            simp [thread_steps, this]
          have := hd i
          rw [hti] at this
          rw [hother i hij]
          exact this
      simp only [publishes_by_nonholder, hm, Option.getD_some, Bool.and_eq_true]
      exact ⟨hdj.1, ih h1 hal1 hrest⟩

theorem publish_unlocked_append (a c : List Step) : ∀ b,
    publish_unlocked b (a ++ c)
      = (publish_unlocked b a && publish_unlocked (held_after b a) c) := by
  induction a with
  | nil => intro b; simp [publish_unlocked, held_after]
  | cons x t ih =>
    intro b
    show publish_unlocked b (x :: (t ++ c)) = _
    simp only [publish_unlocked, ih, held_after, List.foldl_cons, Bool.and_assoc]

theorem publish_unlocked_units (units : List (List Event))
    (h : ∀ u ∈ units, unit_publish_ok u) :
    publish_unlocked false (steps_of_all units) = true
    ∧ held_after false (steps_of_all units) = false := by
  induction units with
  | nil => exact ⟨rfl, rfl⟩
  | cons u rest ih =>
    have hu : unit_publish_ok u := h u (List.mem_cons_self u rest)
    have hr := ih (fun v hv => h v (List.mem_cons_of_mem u hv))
    have e : steps_of_all (u :: rest) = steps_of u ++ steps_of_all rest := by
      simp [steps_of_all]
    rw [e, publish_unlocked_append, held_after_append, hu.1, hu.2, hr.1, hr.2]
    exact ⟨rfl, rfl⟩

theorem publish_unlocked_of_none (l : List Event) (h : ∀ e ∈ l, e.isPublish = false) :
    ∀ b, publish_unlocked b (steps_of l) = true := by
  induction l with
  | nil => intro b; rfl
  | cons a t ih =>
    intro b
    have ha : a.isPublish = false := h a (List.mem_cons_self a t)
    have ht := ih (fun e he => h e (List.mem_cons_of_mem a he))
    cases a with
    | cond_wait =>
      cases t with
      | nil => rfl
      | cons x r =>
        show publish_unlocked b (.call .cond_wait :: .wake :: steps_of (x :: r)) = true
        simp only [publish_unlocked, Step.isPublish, Event.isPublish, Bool.false_and,
          Bool.not_false, Bool.true_and, ht]
    | publish_to_topic_json topic payload => simp [Event.isPublish] at ha
    | publish_to_iot_core topic payload qos => simp [Event.isPublish] at ha
    | _ =>
      simp only [steps_of, publish_unlocked, Step.isPublish, Event.isPublish, Bool.false_and,
        Bool.not_false, Bool.true_and, ht]

theorem threads_publish_free (ok : List Event → Prop) (hok : ∀ tr, ok tr → unit_publish_ok tr)
    (sched : List (Nat × Step)) (hal : allowed none sched = true)
    (hth : ∀ i, ∃ units : List (List Event),
      (∀ u ∈ units, ok u) ∧ thread_steps i sched <+: steps_of_all units) :
    publishes_by_nonholder none sched = true := by
  apply mutex_frees_publish sched none hal
  intro i
  obtain ⟨units, hu, ⟨t, ht⟩⟩ := hth i
  have hd := (publish_unlocked_units units (fun u hm => hok u (hu u hm))).1
  rw [← ht, publish_unlocked_append, Bool.and_eq_true] at hd
  exact hd.1

theorem on_cloud_command_no_publish (payload : Bytes) (cst : ControllerState) :
    ∀ e ∈ (on_cloud_command payload cst).2, e.isPublish = false := by
  rcases on_cloud_command_trace payload cst with h | ⟨writes, hw, h⟩
  · rw [h]
    intro e he
    simp only [List.mem_singleton] at he
    rw [he]
    rfl
  · rw [h]
    intro x hx
    simp only [List.mem_cons, List.mem_append, List.mem_singleton, List.not_mem_nil,
      or_false] at hx
    rcases hx with ((hx | hx) | hx) | hx | hx | hx | hx | hx
    · rw [hx]; rfl
    · rw [hx]; rfl
    · rw [hw x hx]; rfl
    · rw [hx]; rfl
    · rw [hx]; rfl
    · rw [hx]; rfl
    · rw [hx]; rfl
    · rw [hx]; rfl

theorem waiting_no_publish (w : Nat) :
    ∀ e ∈ Event.mutex_lock :: (wait_loop false w).2, e.isPublish = false := by
  intro e he
  simp only [List.mem_cons] at he
  rcases he with he | he
  · rw [he]; rfl
  · have := List.filter_eq_nil_iff.mp (wait_loop_false_locked w).2.2 e he
    simpa using this

theorem processor_trace_publish_ok (tr : List Event) (h : processor_trace tr) :
    unit_publish_ok tr := by
  refine ⟨?_, (processor_trace_unit_ok tr h).2⟩
  rcases h with ⟨sdk, obj, st, rfl⟩ | ⟨ret, w, st, rfl⟩
  · rcases on_sensor_data_trace sdk obj st with h | ⟨_, h | h | h | h⟩ <;> rw [h] <;> rfl
  · rcases alert_publisher_thread_shape ret w st with h | h | h <;> rw [h]
    · exact publish_unlocked_of_none _ (waiting_no_publish w) false
    · rfl
    · rfl

theorem controller_trace_publish_ok (tr : List Event) (h : controller_trace tr) :
    unit_publish_ok tr := by
  refine ⟨?_, (controller_trace_unit_ok tr h).2⟩
  rcases h with ⟨payload, st, rfl⟩ | ⟨ret, now, w, st, rfl⟩
  · exact publish_unlocked_of_none _ (on_cloud_command_no_publish payload st) false
  · rcases telemetry_publisher_thread_shape ret now w st with h | h | h | h <;> rw [h]
    · exact publish_unlocked_of_none _ (waiting_no_publish w) false
    · rfl
    · rfl
    · rfl

/-- C13. The worker never publishes while holding the mailbox lock: in every
iteration of `alert_publisher_thread` and of `telemetry_publisher_thread` no
publish call is made with the mutex held; an iteration that takes a record is
the take, ending with the unlock, followed by calls that hold the publish (if
any) and no lock, so that the mutex is free from before the publish call until
control is back at the top of the loop. Hence, in every schedule of several
threads that the mutex allows, each thread running handler invocations or
worker iterations one after the other, no publish call is made by the thread
that holds the mutex: the mutex of a publishing worker is free for a handler. -/
theorem worker_publishes_unlocked (ret : GgError) (now : Int) (w : Nat)
    (pst : ProcessorState) (cst : ControllerState) :
    publishes_locked false (alert_publisher_thread ret w pst).trace = false
    ∧ (∀ st1 tr, alert_publisher_thread ret w pst = .loop_top st1 tr →
        ∃ take rest, tr = take ++ .mutex_unlock :: rest
          ∧ take.filter Event.isPublish = []
          ∧ rest.filter Event.isLock = []
          ∧ (rest.filter Event.isPublish).length = 1
          ∧ held_at_end false tr = false)
    ∧ publishes_locked false (telemetry_publisher_thread ret now w cst).trace = false
    ∧ (∀ st1 tr, telemetry_publisher_thread ret now w cst = .loop_top st1 tr →
        ∃ take rest, tr = take ++ .mutex_unlock :: rest
          ∧ take.filter Event.isPublish = []
          ∧ rest.filter Event.isLock = []
          ∧ (rest.filter Event.isPublish).length ≤ 1
          ∧ held_at_end false tr = false)
    ∧ (∀ sched : List (Nat × Step), allowed none sched = true →
        (∀ i, ∃ units : List (List Event),
          (∀ u ∈ units, processor_trace u) ∧ thread_steps i sched <+: steps_of_all units) →
        publishes_by_nonholder none sched = true)
    ∧ (∀ sched : List (Nat × Step), allowed none sched = true →
        (∀ i, ∃ units : List (List Event),
          (∀ u ∈ units, controller_trace u) ∧ thread_steps i sched <+: steps_of_all units) →
        publishes_by_nonholder none sched = true) := by
  refine ⟨?_, ?_, ?_, ?_,
    fun sched hal hth => threads_publish_free processor_trace processor_trace_publish_ok
      sched hal hth,
    fun sched hal hth => threads_publish_free controller_trace controller_trace_publish_ok
      sched hal hth⟩
  · rcases alert_publisher_thread_shape ret w pst with h | h | h <;> rw [h]
    · simp [Iteration.trace, publishes_locked, Event.isPublish, Event.holds,
        (wait_loop_false_locked w).1]
    · rfl
    · rfl
  · intro st1 tr htr
    rcases alert_publisher_thread_shape ret w pst with h | h | h <;> rw [h] at htr
    · cases htr
    · cases htr
      exact ⟨[.mutex_lock, .read_flag, .read_slot, .write_flag], _, rfl, rfl, rfl, rfl, rfl⟩
    · cases htr
      exact ⟨[.mutex_lock, .read_flag, .read_slot, .write_flag], _, rfl, rfl, rfl, rfl, rfl⟩
  · rcases telemetry_publisher_thread_shape ret now w cst with h | h | h | h <;> rw [h]
    · simp [Iteration.trace, publishes_locked, Event.isPublish, Event.holds,
        (wait_loop_false_locked w).1]
    · rfl
    · rfl
    · rfl
  · intro st1 tr htr
    rcases telemetry_publisher_thread_shape ret now w cst with h | h | h | h <;> rw [h] at htr
    · cases htr
    · cases htr
      exact ⟨[.mutex_lock, .read_flag, .read_slot, .write_flag], _, rfl, rfl, rfl,
        by simp [List.filter, Event.isPublish], rfl⟩
    · cases htr
      exact ⟨[.mutex_lock, .read_flag, .read_slot, .write_flag], _, rfl, rfl, rfl,
        by simp [List.filter, Event.isPublish], rfl⟩
    · cases htr
      exact ⟨[.mutex_lock, .read_flag, .read_slot, .write_flag], _, rfl, rfl, rfl,
        by simp [List.filter, Event.isPublish], rfl⟩

/-- Instance of C13: one iteration of each worker on the pending sample
mailboxes, with a publish that fails with code 1; the sample schedule of a
waiting worker, a put and a take; and two schedules that are refused. -/
theorem worker_publishes_unlocked_witness :
    publishes_locked false (alert_publisher_thread 1 0 processor_pending).trace = false
    ∧ publishes_locked false
        (telemetry_publisher_thread 1 1700000000 0 controller_pending).trace = false
    ∧ (∃ take rest,
        (alert_publisher_thread 1 0 processor_pending).trace = take ++ .mutex_unlock :: rest
          ∧ take.filter Event.isPublish = []
          ∧ rest.filter Event.isLock = []
          ∧ (rest.filter Event.isPublish).length = 1
          ∧ held_at_end false (alert_publisher_thread 1 0 processor_pending).trace = false)
    ∧ allowed none sample_schedule = true
    ∧ publishes_by_nonholder none sample_schedule = true
    ∧ allowed none [(1, .call .mutex_lock), (0, .call .mutex_lock)] = false
    ∧ publishes_by_nonholder none
        [(1, .call .mutex_lock), (1, .call (.publish_to_iot_core [] [] 0))] = false :=
  ⟨(worker_publishes_unlocked 1 1700000000 0 processor_pending controller_pending).1,
   (worker_publishes_unlocked 1 1700000000 0 processor_pending controller_pending).2.2.1,
   (worker_publishes_unlocked 1 1700000000 0 processor_pending controller_pending).2.1
      { processor_pending with has_pending_alert := false }
      (alert_publisher_thread 1 0 processor_pending).trace rfl,
   rfl,
   (worker_publishes_unlocked 1 1700000000 0 processor_pending
      controller_pending).2.2.2.2.1 sample_schedule rfl sample_schedule_threads,
   rfl, rfl⟩

end GreengrassBridge
